import Mathlib

/-!
A verification development for the Mundt nodal room-air model of
`src/EnergyPlus/MundtSimMgr.cc`.

The module's data (the per-zone rows of `LineNode`, `MundtAirSurf`, the
working array `FloorSurf`, and the module-level scalars and role indices)
is collected into an explicit state record `MundtZoneState`; machine reals
(`Real64`) are embedded as rationals, stateful subroutines become pure
state-transforming functions, and subroutines that can call
`ShowFatalError` return `Option`/`Except` values.  Two kinds of
instrumentation are added, neither of which alters any computed value:
ghost output fields (`calcSlope`, `calcTAirFoot`, ...) that record the
values of the corresponding local variables of `CalcMundtModel`, and
write logs (`tmeanWriteLog`, `surfTempWriteLog`) that record which
surface entries were written.
-/

namespace MundtSimMgr

/-- Specific heat of air, module parameter `CpAir` (MundtSimMgr.cc line 55). -/
def CpAir : ℚ := 1005

/-- Lower bound on the Mundt gradient, module parameter `MinSlope` (line 56). -/
def MinSlope : ℚ := 1 / 1000

/-- Upper bound on the Mundt gradient, module parameter `MaxSlope` (line 57). -/
def MaxSlope : ℚ := 5

/-- Modelled from the spec: the air-node role tag `InletAirNode` comes from
`DataRoomAirModel`, whose source is not under `src/`; the spec only requires
the six role tags to be distinct, so arbitrary distinct integers are used. -/
def InletAirNode : Int := 1

/-- Modelled from the spec: role tag `FloorAirNode` of `DataRoomAirModel`. -/
def FloorAirNode : Int := 2

/-- Modelled from the spec: role tag `ControlAirNode` of `DataRoomAirModel`. -/
def ControlAirNode : Int := 3

/-- Modelled from the spec: role tag `CeilingAirNode` of `DataRoomAirModel`. -/
def CeilingAirNode : Int := 4

/-- Modelled from the spec: role tag `MundtRoomAirNode` of `DataRoomAirModel`. -/
def MundtRoomAirNode : Int := 5

/-- Modelled from the spec: role tag `ReturnAirNode` of `DataRoomAirModel`. -/
def ReturnAirNode : Int := 6

/-- Modelled from the spec: reference-air-temperature mode `ZoneMeanAirTemp`
of `DataSurfaces` (source not under `src/`); only distinctness from
`AdjacentAirTemp` matters. -/
def ZoneMeanAirTemp : Nat := 1

/-- Modelled from the spec: reference-air-temperature mode `AdjacentAirTemp`
of `DataSurfaces`. -/
def AdjacentAirTemp : Nat := 2

/-- One entry of the `LineNode` table (`DefineLinearModelNode` of
`DataRoomAirModel`): identity name, role tag, height, running temperature
and surface-membership mask. -/
structure DefineLinearModelNode where
  airNodeName : String
  classType : Int
  height : ℚ
  temp : ℚ
  surfMask : List Bool
deriving Inhabited, DecidableEq

/-- One entry of the `MundtAirSurf` / `FloorSurf` tables
(`DefineSurfaceSettings` of `DataRoomAirModel`): static area and the
per-call surface temperature, convective coefficient and mean effective
air temperature. -/
structure DefineSurfaceSettings where
  area : ℚ
  temp : ℚ
  hc : ℚ
  tMeanAir : ℚ
deriving Inhabited, DecidableEq

/-- The Mundt module's state for the zone currently being processed: the
zone's row of `LineNode` and `MundtAirSurf`, the `FloorSurf` working array,
and the module-level role indices and scalar working variables
(MundtSimMgr.cc lines 67-100).  The `calc*` fields are ghost outputs
recording the local variables of `CalcMundtModel`; the `*WriteLog` fields
are ghost logs of surface-entry writes. -/
structure MundtZoneState where
  lineNode : List DefineLinearModelNode
  mundtAirSurf : List DefineSurfaceSettings
  floorSurf : List DefineSurfaceSettings
  floorSurfSetIDs : List Nat
  numFloorSurfs : Nat
  roomNodeIDs : List Nat
  numRoomNodes : Nat
  supplyNodeID : Nat
  mundtFootAirID : Nat
  tstatNodeID : Nat
  mundtCeilAirID : Nat
  returnNodeID : Nat
  zoneHeight : ℚ
  zoneFloorArea : ℚ
  qventCool : ℚ
  convIntGain : ℚ
  supplyAirTemp : ℚ
  supplyAirVolumeRate : ℚ
  zoneAirDensity : ℚ
  qsysCoolTot : ℚ
  calcSlope : ℚ
  calcTAirFoot : ℚ
  calcTLeaving : ℚ
  calcTAirCeil : ℚ
  calcTControl : ℚ
  tmeanWriteLog : List Nat
  surfTempWriteLog : List Nat
deriving Inhabited, DecidableEq

/-- The module variables as default-initialized at program start
(MundtSimMgr.cc lines 67-100): all role indices 0, all scalars 0,
all tables unallocated (empty). -/
def initialMundtState : MundtZoneState where
  lineNode := []
  mundtAirSurf := []
  floorSurf := []
  floorSurfSetIDs := []
  numFloorSurfs := 0
  roomNodeIDs := []
  numRoomNodes := 0
  supplyNodeID := 0
  mundtFootAirID := 0
  tstatNodeID := 0
  mundtCeilAirID := 0
  returnNodeID := 0
  zoneHeight := 0
  zoneFloorArea := 0
  qventCool := 0
  convIntGain := 0
  supplyAirTemp := 0
  supplyAirVolumeRate := 0
  zoneAirDensity := 0
  qsysCoolTot := 0
  calcSlope := 0
  calcTAirFoot := 0
  calcTLeaving := 0
  calcTAirCeil := 0
  calcTControl := 0
  tmeanWriteLog := []
  surfTempWriteLog := []

/-- Read the 1-based entry `i` of the zone's `LineNode` row. -/
def nodeAt (s : MundtZoneState) (i : Nat) : DefineLinearModelNode :=
  s.lineNode.getD (i - 1) default

/-- Read the 1-based entry `i` of the zone's `MundtAirSurf` row. -/
def surfAt (s : MundtZoneState) (i : Nat) : DefineSurfaceSettings :=
  s.mundtAirSurf.getD (i - 1) default

/-- Temperature of air node `i` (1-based). -/
def tempAt (s : MundtZoneState) (i : Nat) : ℚ := (nodeAt s i).temp

/-- Height of air node `i` (1-based). -/
def heightAt (s : MundtZoneState) (i : Nat) : ℚ := (nodeAt s i).height

/-- `SetNodeResult` (lines 736-781): `LineNode(MundtZoneNum, NodeID).Temp = TempResult`. -/
def setNodeResult (s : MundtZoneState) (nodeID : Nat) (tempResult : ℚ) : MundtZoneState :=
  { s with lineNode := s.lineNode.set (nodeID - 1) { nodeAt s nodeID with temp := tempResult } }

/-- `SetSurfTmeanAir` (lines 785-830):
`MundtAirSurf(MundtZoneNum, SurfID).TMeanAir = TeffAir`, with a ghost log
entry recording the write. -/
def setSurfTmeanAir (s : MundtZoneState) (surfID : Nat) (teffAir : ℚ) : MundtZoneState :=
  { s with
    mundtAirSurf := s.mundtAirSurf.set (surfID - 1) { surfAt s surfID with tMeanAir := teffAir }
    tmeanWriteLog := s.tmeanWriteLog ++ [surfID] }

/-- The 1-based indices at which a surface-membership mask is set:
`pack(ID1dSurf, mask)` of the source (lines 592, 717, 726), whose length is
`count(mask)`. -/
def maskIndices (mask : List Bool) : List Nat :=
  (List.range mask.length).filterMap fun i => if mask.getD i false then some (i + 1) else none

/-- `FloorSumHAT = sum(FloorSurf.Area()*FloorSurf.Hc()*FloorSurf.Temp())` (line 674).
`FloorSurf` entries beyond `NumFloorSurfs` carry `Area = Hc = 0` in the source
(reset at line 594-596) and contribute nothing to the sum, so the state holds
only the first `NumFloorSurfs` entries. -/
def floorSumHAT (s : MundtZoneState) : ℚ :=
  (s.floorSurf.map fun f => f.area * f.hc * f.temp).sum

/-- `FloorSumHA = sum(FloorSurf.Area()*FloorSurf.Hc())` (line 675). -/
def floorSumHA (s : MundtZoneState) : ℚ :=
  (s.floorSurf.map fun f => f.area * f.hc).sum

/-- The floor air temperature energy balance, Eq 2.2 of ASHRAE RP 1222
(line 678), with the floor splits applied to the gains (lines 668-669):
`TAirFoot = (rho*Cp*V*Tsupply + FloorSumHAT + QequipConvFloor + QSensInfilFloor)
/ (rho*Cp*V + FloorSumHA)`. -/
def tAirFootBalance (convectiveFloorSplit infiltratFloorSplit : ℚ) (s : MundtZoneState) : ℚ :=
  ((s.zoneAirDensity * CpAir * s.supplyAirVolumeRate * s.supplyAirTemp) + floorSumHAT s +
      convectiveFloorSplit * s.convIntGain + (-infiltratFloorSplit * s.qventCool)) /
    ((s.zoneAirDensity * CpAir * s.supplyAirVolumeRate) + floorSumHA s)

/-- The leaving (return) air temperature, Eq 2.3 (lines 681-686): the supply
temperature when the cooling load is non-positive, otherwise supply plus
load over the zone thermal capacity rate. -/
def tLeavingOf (s : MundtZoneState) : ℚ :=
  if s.qsysCoolTot ≤ 0 then s.supplyAirTemp
  else s.qsysCoolTot / (s.zoneAirDensity * CpAir * s.supplyAirVolumeRate) + s.supplyAirTemp

/-- The slope check of lines 691-698: clamp `slope0` to `MaxSlope`
(recomputing `TAirFoot` along the gradient line over the height difference
`d`), then to `MinSlope` (forcing `TAirFoot = TLeaving`).  Returns the final
`(Slope, TAirFoot)` pair. -/
def slopeClamp (tLeaving tAirFoot0 slope0 d : ℚ) : ℚ × ℚ :=
  let p := if MaxSlope < slope0 then (MaxSlope, tLeaving - MaxSlope * d) else (slope0, tAirFoot0)
  if p.1 < MinSlope then (MinSlope, tLeaving) else p

/-- One iteration of the room-node loop of `CalcMundtModel` (lines 722-730):
compute `TThisNode` by the gradient formula at the node's own height, write
it to the node, and write it to every surface in the node's membership mask. -/
def roomNodeStep (tLeaving slope : ℚ) (st : MundtZoneState) (nid : Nat) : MundtZoneState :=
  let tThisNode := tLeaving - slope * (heightAt st st.returnNodeID - heightAt st nid)
  let st1 := setNodeResult st nid tThisNode
  (maskIndices (nodeAt st1 nid).surfMask).foldl
    (fun st2 sid => setSurfTmeanAir st2 sid tThisNode) st1

/-- The `SetNodeResult` sequence of lines 706-710: supply, return, ceiling,
floor and control node temperatures, in source order. -/
def writeNodeResults (tLeaving tAirCeil tAirFoot tControlPoint : ℚ) (s : MundtZoneState) :
    MundtZoneState :=
  let s1 := setNodeResult s s.supplyNodeID s.supplyAirTemp
  let s2 := setNodeResult s1 s1.returnNodeID tLeaving
  let s3 := setNodeResult s2 s2.mundtCeilAirID tAirCeil
  let s4 := setNodeResult s3 s3.mundtFootAirID tAirFoot
  setNodeResult s4 s4.tstatNodeID tControlPoint

/-- The `SetSurfTmeanAir` fan-out of lines 712-730: floor surfaces get
`TAirFoot`, ceiling-mask surfaces get `TAirCeil`, then the room-node loop. -/
def writeSurfResults (tLeaving slope tAirFoot tAirCeil : ℚ) (s5 : MundtZoneState) :
    MundtZoneState :=
  let s6 := (s5.floorSurfSetIDs.take s5.numFloorSurfs).foldl
    (fun st sid => setSurfTmeanAir st sid tAirFoot) s5
  let s7 := (maskIndices (nodeAt s6 s6.mundtCeilAirID).surfMask).foldl
    (fun st sid => setSurfTmeanAir st sid tAirCeil) s6
  (s7.roomNodeIDs.take s7.numRoomNodes).foldl (roomNodeStep tLeaving slope) s7

/-- The tail of `CalcMundtModel` after the raw slope has been formed
(lines 690-731): clamp the slope, interpolate the ceiling and control
temperatures along the gradient line anchored at the Return height, fan the
results out onto the air nodes and the floor/ceiling/room-node surfaces,
and record the solver locals in the ghost output fields. -/
def calcMundtModelAfterSlope (tLeaving tAirFoot0 slope0 d : ℚ) (s : MundtZoneState) :
    MundtZoneState :=
  let p := slopeClamp tLeaving tAirFoot0 slope0 d
  let slope := p.1
  let tAirFoot := p.2
  let tAirCeil := tLeaving - slope * (heightAt s s.returnNodeID - heightAt s s.mundtCeilAirID)
  let tControlPoint := tLeaving - slope * (heightAt s s.returnNodeID - heightAt s s.tstatNodeID)
  let s8 := writeSurfResults tLeaving slope tAirFoot tAirCeil
    (writeNodeResults tLeaving tAirCeil tAirFoot tControlPoint s)
  { s8 with
    calcSlope := slope
    calcTAirFoot := tAirFoot
    calcTLeaving := tLeaving
    calcTAirCeil := tAirCeil
    calcTControl := tControlPoint }

/-- The height difference `LineNode(ReturnNodeID).Height -
LineNode(MundtFootAirID).Height` dividing Eq 2.4 (line 689). -/
def gradDiff (s : MundtZoneState) : ℚ :=
  heightAt s s.returnNodeID - heightAt s s.mundtFootAirID

/-- The raw (unclamped) slope of Eq 2.4 (line 689):
`(TLeaving - TAirFoot) / (ReturnHeight - FloorHeight)`. -/
def rawSlope (convectiveFloorSplit infiltratFloorSplit : ℚ) (s : MundtZoneState) : ℚ :=
  (tLeavingOf s - tAirFootBalance convectiveFloorSplit infiltratFloorSplit s) / gradDiff s

/-- The `(Slope, TAirFoot)` pair after the clamping of lines 691-698. -/
def clampedPair (convectiveFloorSplit infiltratFloorSplit : ℚ) (s : MundtZoneState) : ℚ × ℚ :=
  slopeClamp (tLeavingOf s) (tAirFootBalance convectiveFloorSplit infiltratFloorSplit s)
    (rawSlope convectiveFloorSplit infiltratFloorSplit s) (gradDiff s)

/-- `CalcMundtModel` (lines 612-732): the closed-form stratification solve.
The floor splits `ConvectiveFloorSplit(ZoneNum)` and
`InfiltratFloorSplit(ZoneNum)` are external per-zone data passed as
arguments. -/
def calcMundtModel (convectiveFloorSplit infiltratFloorSplit : ℚ) (s : MundtZoneState) :
    MundtZoneState :=
  calcMundtModelAfterSlope (tLeavingOf s)
    (tAirFootBalance convectiveFloorSplit infiltratFloorSplit s)
    (rawSlope convectiveFloorSplit infiltratFloorSplit s) (gradDiff s) s

/-- Division that fails on a zero denominator, used by the guarded variant
of the solver. -/
def safeDiv (a b : ℚ) : Option ℚ := if b = 0 then none else some (a / b)

/-- A guarded replica of `CalcMundtModel`, identical to `calcMundtModel`
except that each of the three divisions of the source (lines 678, 685, 689)
is checked for a zero denominator; it fails exactly where the source
performs a division by zero.  The source itself performs no such checks. -/
def calcMundtModelChecked (convectiveFloorSplit infiltratFloorSplit : ℚ)
    (s : MundtZoneState) : Option MundtZoneState :=
  let num := (s.zoneAirDensity * CpAir * s.supplyAirVolumeRate * s.supplyAirTemp) +
    floorSumHAT s + convectiveFloorSplit * s.convIntGain + (-infiltratFloorSplit * s.qventCool)
  match safeDiv num ((s.zoneAirDensity * CpAir * s.supplyAirVolumeRate) + floorSumHA s) with
  | none => none
  | some tAirFoot0 =>
    let tLeavingO : Option ℚ :=
      if s.qsysCoolTot ≤ 0 then some s.supplyAirTemp
      else (safeDiv s.qsysCoolTot (s.zoneAirDensity * CpAir * s.supplyAirVolumeRate)).map
        (· + s.supplyAirTemp)
    match tLeavingO with
    | none => none
    | some tLeaving =>
      let d := heightAt s s.returnNodeID - heightAt s s.mundtFootAirID
      match safeDiv (tLeaving - tAirFoot0) d with
      | none => none
      | some slope0 => some (calcMundtModelAfterSlope tLeaving tAirFoot0 slope0 d s)

/-- The severe message of `SetupMundtModel` for an unsupported role tag (line 584). -/
def setupSevereMsg : String := "SetupMundtModel: Non-Standard Type of Air Node for Mundt Model"

/-- The severe message of `SetupMundtModel` for a missing floor node (line 604). -/
def setupNoFloorMsg (zoneName : String) : String :=
  "SetupMundtModel: Mundt model has no FloorAirNode, Zone=" ++ zoneName

/-- One iteration of the role-classification loop of `SetupMundtModel`
(lines 568-587): bind the module role index matching the node's class type,
or report a severe error for an unrecognized class.  The accumulator is
`(state, ErrorsFound, severe log)`. -/
def setupScanStep (acc : MundtZoneState × Bool × List String) (n : Nat) :
    MundtZoneState × Bool × List String :=
  let st := acc.1
  let c := (nodeAt st n).classType
  if c = InletAirNode then ({ st with supplyNodeID := n }, acc.2.1, acc.2.2)
  else if c = FloorAirNode then ({ st with mundtFootAirID := n }, acc.2.1, acc.2.2)
  else if c = ControlAirNode then ({ st with tstatNodeID := n }, acc.2.1, acc.2.2)
  else if c = CeilingAirNode then ({ st with mundtCeilAirID := n }, acc.2.1, acc.2.2)
  else if c = MundtRoomAirNode then
    ({ st with numRoomNodes := st.numRoomNodes + 1, roomNodeIDs := st.roomNodeIDs ++ [n] },
      acc.2.1, acc.2.2)
  else if c = ReturnAirNode then ({ st with returnNodeID := n }, acc.2.1, acc.2.2)
  else (st, true, acc.2.2 ++ [setupSevereMsg])

/-- `SetupMundtModel` (lines 520-608): classify the zone's `totNodes` air
nodes into the six role indices, then derive the floor-surface working set
from the Floor node's membership mask; a severe error is reported for an
unrecognized role tag or when the (module-level, possibly stale) floor
index is still unset.  `RoomNodeIDs` positions beyond `NumRoomNodes` and
`FloorSurf` entries beyond `NumFloorSurfs` are never read with nonzero
weight by the solver, so the lists hold just the active prefixes. -/
def setupMundtModel (zoneName : String) (totNodes : Nat) (s0 : MundtZoneState) :
    MundtZoneState × Bool × List String :=
  let r := (List.range' 1 totNodes).foldl setupScanStep
    ({ s0 with numRoomNodes := 0, roomNodeIDs := [] }, false, [])
  let s1 := r.1
  if 0 < s1.mundtFootAirID then
    let ids := maskIndices (nodeAt s1 s1.mundtFootAirID).surfMask
    ({ s1 with
       numFloorSurfs := ids.length
       floorSurfSetIDs := ids
       floorSurf := ids.map fun sid =>
         { area := (surfAt s1 sid).area
           temp := (surfAt s1 sid).temp
           hc := (surfAt s1 sid).hc
           tMeanAir := 0 } }, r.2.1, r.2.2)
  else
    (s1, true, r.2.2 ++ [setupNoFloorMsg zoneName])

/-- The host-engine data pulled by the inbound coupling adapter
`GetSurfHBDataForMundtModel` and read by the outbound adapter
`SetSurfHBDataForMundtModel`: zone record fields, heat-balance state,
the inlet-node table (temperature, mass flow rate per node), per-surface
arrays over the zone's surface range, and the psychrometric services,
which are external collaborators kept abstract as function parameters. -/
structure HostInputs where
  isControlled : Bool
  ceilingHeight : ℚ
  floorArea : ℚ
  multiplier : ℚ
  listMultiplier : ℚ
  outBaroPress : ℚ
  mat : ℚ
  zoneAirHumRat : ℚ
  zoneNodeMassFlowRate : ℚ
  inletNodes : List (ℚ × ℚ)
  sumIntConvGain : ℚ
  sumConvHTRadSys : ℚ
  sumConvPool : ℚ
  sysDepZoneLoadsLagged : ℚ
  nonAirSystemResponse : ℚ
  noHeatToReturnAir : Bool
  retAirConvGain : ℚ
  mcpi : ℚ
  outDryBulbTemp : ℚ
  tempSurfIn : List ℚ
  hConvIn : List ℚ
  psyRhoAirFnPbTdbW : ℚ → ℚ → ℚ → ℚ
  psyWFnTdpPb : ℚ → ℚ → ℚ
  psyCpAirFnWTdb : ℚ → ℚ → ℚ
  tempZoneThermostatSetPoint : ℚ
  zt : ℚ
  tempCoupleSchemeDirect : Bool
deriving Inhabited

/-- The per-surface copy loop of `GetSurfHBDataForMundtModel`
(lines 511-514): overwrite each entry's surface temperature and convective
coefficient from the host arrays, leaving area and `TMeanAir` untouched. -/
def copySurfInputs : List DefineSurfaceSettings → List ℚ → List ℚ → List DefineSurfaceSettings
  | m :: ms, t :: ts, c :: cs => { m with temp := t, hc := c } :: copySurfInputs ms ts cs
  | ms, _, _ => ms

/-- `GetSurfHBDataForMundtModel` (lines 381-516): the inbound coupling
adapter.  Fails (fatal) for an uncontrolled zone; binds the per-zone scalar
working state (density, supply flow/temperature, cooling load, gains) and
copies the current surface temperatures and convection coefficients into
the zone's `MundtAirSurf` row, logging those writes. -/
def getSurfHBDataForMundtModel (h : HostInputs) (s : MundtZoneState) : Option MundtZoneState :=
  if ¬ h.isControlled then none
  else
    let zoneMult := h.multiplier * h.listMultiplier
    let zoneAirDensity := h.psyRhoAirFnPbTdbW h.outBaroPress h.mat (h.psyWFnTdpPb h.mat h.outBaroPress)
    let zoneMassFlowRate := h.zoneNodeMassFlowRate
    let supplyAirVolumeRate := zoneMassFlowRate / zoneAirDensity
    let p : ℚ × ℚ :=
      if zoneMassFlowRate ≤ 1 / 10000 then (s.supplyAirTemp, 0)
      else
        let sumSysMCp := (h.inletNodes.map fun nd => nd.2 * h.psyCpAirFnWTdb h.zoneAirHumRat nd.1).sum
        let sumSysMCpT :=
          (h.inletNodes.map fun nd => nd.2 * h.psyCpAirFnWTdb h.zoneAirHumRat nd.1 * nd.1).sum
        let supplyAirTemp :=
          if sumSysMCp ≤ 0 then (h.inletNodes.getD 0 (0, 0)).1 else sumSysMCpT / sumSysMCp
        let cp := h.psyCpAirFnWTdb h.zoneAirHumRat h.mat
        (supplyAirTemp, -(sumSysMCpT - zoneMassFlowRate * cp * h.mat))
    let convIntGain := h.sumIntConvGain + h.sumConvHTRadSys + h.sumConvPool +
      h.sysDepZoneLoadsLagged + h.nonAirSystemResponse / zoneMult +
      (if h.noHeatToReturnAir then h.retAirConvGain else 0)
    some { s with
      zoneHeight := h.ceilingHeight
      zoneFloorArea := h.floorArea
      zoneAirDensity := zoneAirDensity
      supplyAirVolumeRate := supplyAirVolumeRate
      supplyAirTemp := p.1
      qsysCoolTot := p.2
      convIntGain := convIntGain
      qventCool := -h.mcpi * (h.outDryBulbTemp - h.mat)
      mundtAirSurf := copySurfInputs s.mundtAirSurf h.tempSurfIn h.hConvIn
      surfTempWriteLog := s.surfTempWriteLog ++ List.range' 1 s.mundtAirSurf.length }

/-- The host-engine fields written by the outbound coupling adapter
`SetSurfHBDataForMundtModel`: bulk effective air temperature and
reference-mode flag for every surface of the zone's range, the zone-node
(leaving) temperature and thermostat air temperature (written only when the
solver ran), and the model-in-use flag `AirModel(ZoneNum).SimAirModel`. -/
structure HostOutputs where
  tempEffBulkAir : List ℚ
  tAirRef : List Nat
  zoneNodeTemp : Option ℚ
  tempTstatAir : Option ℚ
  simAirModel : Bool
deriving Inhabited, DecidableEq

/-- `SetSurfHBDataForMundtModel` (lines 834-948): the outbound coupling
adapter.  When the flow/load gate holds, fan the solved temperatures back
under the direct or indirect coupling policy and set the model-in-use flag;
otherwise fall back to the well-mixed assumption: every surface's bulk
effective air temperature becomes the host's mean air temperature with the
zone-mean-air reference mode, and the flag is cleared. -/
def setSurfHBDataForMundtModel (h : HostInputs) (s : MundtZoneState) : HostOutputs :=
  let n := s.mundtAirSurf.length
  if s.supplyAirVolumeRate > 1 / 10000 ∧ s.qsysCoolTot > 1 / 10000 then
    if h.tempCoupleSchemeDirect then
      { tempEffBulkAir := (List.range n).map fun i => (surfAt s (i + 1)).tMeanAir
        tAirRef := List.replicate n AdjacentAirTemp
        zoneNodeTemp := some (tempAt s s.returnNodeID)
        tempTstatAir := some (tempAt s s.tstatNodeID)
        simAirModel := true }
    else
      { tempEffBulkAir := (List.range n).map fun i =>
          h.tempZoneThermostatSetPoint + ((surfAt s (i + 1)).tMeanAir - tempAt s s.tstatNodeID)
        tAirRef := List.replicate n AdjacentAirTemp
        zoneNodeTemp := some
          (h.tempZoneThermostatSetPoint + (tempAt s s.returnNodeID - tempAt s s.tstatNodeID))
        tempTstatAir := some h.zt
        simAirModel := true }
  else
    { tempEffBulkAir := List.replicate n h.mat
      tAirRef := List.replicate n ZoneMeanAirTemp
      zoneNodeTemp := none
      tempTstatAir := none
      simAirModel := false }

/-- The fatal message of `ManageMundtModel` on setup errors (line 165). -/
def manageFatalMsg : String :=
  "ManageMundtModel: Errors in setting up Mundt Model. Preceding condition(s) cause termination."

/-- `ManageMundtModel` (lines 106-175) for one zone, after the one-time
initialization: inbound adapter, then — only when supply volumetric flow
and total cooling load both exceed 0.0001 — role resolution (fatal on setup
errors) and the stratification solve, and finally the outbound adapter,
which always runs.  `none` models a fatal abort. -/
def manageMundtModel (h : HostInputs) (zoneName : String) (totNodes : Nat)
    (convectiveFloorSplit infiltratFloorSplit : ℚ) (s : MundtZoneState) :
    Option (MundtZoneState × HostOutputs) :=
  match getSurfHBDataForMundtModel h s with
  | none => none
  | some s1 =>
    if s1.supplyAirVolumeRate > 1 / 10000 ∧ s1.qsysCoolTot > 1 / 10000 then
      let t := setupMundtModel zoneName totNodes s1
      if t.2.1 then none
      else
        let s3 := calcMundtModel convectiveFloorSplit infiltratFloorSplit t.1
        some (s3, setSurfHBDataForMundtModel h s3)
    else some (s1, setSurfHBDataForMundtModel h s1)

/-- One air-node definition of the topology database (`AirNode` of
`DataRoomAirModel`): name, owning zone name, role tag, height and
surface-membership mask. -/
structure AirNodeDef where
  name : String
  zoneName : String
  classType : Int
  height : ℚ
  surfMask : List Bool
deriving Inhabited, DecidableEq

/-- One zone record as seen by `InitMundtModel`: name, global surface range,
whether the zone uses the Mundt model (`AirModel(i).AirModelType ==
RoomAirModel_Mundt`), and its declared air-node count
(`TotNumOfZoneAirNodes(i)`). -/
structure ZoneRecord where
  name : String
  surfaceFirst : Nat
  surfaceLast : Nat
  isMundt : Bool
  numZoneAirNodes : Nat
deriving Inhabited, DecidableEq

/-- Modelled from the spec: `InputProcessor::SameString` (source not under
`src/`) is a case-insensitive string comparison. -/
def sameString (a b : String) : Bool :=
  a.data.map Char.toUpper == b.data.map Char.toUpper

/-- The immediate fatal message of the topology-build bound check (line 317). -/
def arrayBoundMsg : String :=
  "An array bound exceeded. Error in InitMundtModel subroutine of MundtSimMgr."

/-- The accumulated-severe message for an unmatched air node (line 338). -/
def severeMsg (zoneName : String) : String :=
  "InitMundtModel: Air Node in Zone=\"" ++ zoneName ++ "\" is not found."

/-- The final fatal message of `InitMundtModel` (line 370). -/
def initFatalMsg : String := "InitMundtModel: Preceding condition(s) cause termination."

/-- The `LineNode` entry left for an unmatched air node: the
allocate-time defaults of lines 288-291. -/
def defaultLineNode : DefineLinearModelNode :=
  { airNodeName := "", classType := -1, height := 0, temp := 25, surfMask := [] }

/-- The air-node loop of `InitMundtModel` for one zone (lines 307-353):
`remaining` nodes still to process, `cursor` the forward-only scan position
`AirNodeBeginNum` (1-based).  For each node: the bound check of line 316
aborts immediately when the cursor passed the end of the global air-node
table; otherwise the first definition at or after the cursor whose zone
name matches (case-insensitively) is consumed, and an unmatched node
appends a severe message and continues.  Returns the severe log alongside
the zone's `LineNode` row and its `ErrorsFound` contribution. -/
def processZoneNodes (airNodes : List AirNodeDef) (zoneName : String) :
    Nat → Nat → List String × Except String (List DefineLinearModelNode × Bool)
  | 0, _ => ([], Except.ok ([], false))
  | remaining + 1, cursor =>
    if airNodes.length < cursor then ([], Except.error arrayBoundMsg)
    else
      match (airNodes.drop (cursor - 1)).findIdx? (fun a => sameString a.zoneName zoneName) with
      | some k =>
        let j := cursor + k
        let a := airNodes.getD (j - 1) default
        let node : DefineLinearModelNode :=
          { airNodeName := a.name, classType := a.classType, height := a.height,
            temp := 25, surfMask := a.surfMask }
        let r := processZoneNodes airNodes zoneName remaining (j + 1)
        (r.1, match r.2 with
          | Except.error m => Except.error m
          | Except.ok (row, err) => Except.ok (node :: row, err))
      | none =>
        let r := processZoneNodes airNodes zoneName remaining cursor
        (severeMsg zoneName :: r.1, match r.2 with
          | Except.error m => Except.error m
          | Except.ok (row, _) => Except.ok (defaultLineNode :: row, true))

/-- The zone sweep of `InitMundtModel` (lines 294-368): process each
Mundt-model zone in order, accumulating the severe log and the
`ErrorsFound` flag across zones; an immediate bound fatal stops the sweep. -/
def initZones (airNodes : List AirNodeDef) :
    List ZoneRecord → List String × Except String (List (List DefineLinearModelNode) × Bool)
  | [] => ([], Except.ok ([], false))
  | z :: rest =>
    let r := processZoneNodes airNodes z.name z.numZoneAirNodes 1
    match r.2 with
    | Except.error m => (r.1, Except.error m)
    | Except.ok (row, zerr) =>
      let q := initZones airNodes rest
      (r.1 ++ q.1, match q.2 with
        | Except.error m => Except.error m
        | Except.ok (rows, rerr) => Except.ok (row :: rows, zerr || rerr))

/-- The topology-database inputs of `InitMundtModel`: the zone list and the
global air-node definition table. -/
structure InitInputs where
  zones : List ZoneRecord
  airNodes : List AirNodeDef
deriving Inhabited

/-- `InitMundtModel` (lines 179-377), restricted to the topology-matching
behaviour the claims are about: sweep the zones using the Mundt model in
order, matching every declared air node by a forward-only cursor scan; an
unmatched node accumulates a severe error, and a single final fatal
(`initFatalMsg`) is issued after the sweep when any error accumulated,
while the bound check can issue an immediate fatal (`arrayBoundMsg`)
mid-sweep.  Returns the severe log and either a fatal message or the
per-zone `LineNode` rows. -/
def initMundtModel (inp : InitInputs) :
    List String × Except String (List (List DefineLinearModelNode)) :=
  let mundtZones := inp.zones.filter fun z => z.isMundt
  let r := initZones inp.airNodes mundtZones
  (r.1, match r.2 with
    | Except.error m => Except.error m
    | Except.ok (rows, err) => if err then Except.error initFatalMsg else Except.ok rows)

/-! Basic facts about the node/surface setters. -/

theorem lineNode_length_setNodeResult (s : MundtZoneState) (i : Nat) (v : ℚ) :
    (setNodeResult s i v).lineNode.length = s.lineNode.length := by
  simp [setNodeResult]

theorem tempAt_setNodeResult_self (s : MundtZoneState) (i : Nat) (v : ℚ)
    (h : i - 1 < s.lineNode.length) : tempAt (setNodeResult s i v) i = v := by
  simp [tempAt, nodeAt, setNodeResult, List.getD_eq_getElem?_getD, List.getElem?_set_self, h]

theorem nodeAt_setNodeResult_ne (s : MundtZoneState) (i : Nat) (v : ℚ) (j : Nat)
    (h : i - 1 ≠ j - 1) : nodeAt (setNodeResult s i v) j = nodeAt s j := by
  simp [nodeAt, setNodeResult, List.getD_eq_getElem?_getD, List.getElem?_set_ne h]

theorem heightAt_setNodeResult (s : MundtZoneState) (i : Nat) (v : ℚ) (j : Nat) :
    heightAt (setNodeResult s i v) j = heightAt s j := by
  by_cases h : i - 1 = j - 1
  · by_cases hlt : i - 1 < s.lineNode.length
    · simp [heightAt, nodeAt, setNodeResult, List.getD_eq_getElem?_getD, ← h,
        List.getElem?_set_self, hlt]
    · simp [heightAt, setNodeResult, List.set_eq_of_length_le (Nat.le_of_not_lt hlt)]
  · simp [heightAt, nodeAt_setNodeResult_ne s i v j h]

theorem surfMask_setNodeResult (s : MundtZoneState) (i : Nat) (v : ℚ) (j : Nat) :
    (nodeAt (setNodeResult s i v) j).surfMask = (nodeAt s j).surfMask := by
  by_cases h : i - 1 = j - 1
  · by_cases hlt : i - 1 < s.lineNode.length
    · simp [nodeAt, setNodeResult, List.getD_eq_getElem?_getD, ← h,
        List.getElem?_set_self, hlt]
    · simp [setNodeResult, List.set_eq_of_length_le (Nat.le_of_not_lt hlt)]
  · simp [nodeAt_setNodeResult_ne s i v j h]

theorem surfAt_setNodeResult (s : MundtZoneState) (i : Nat) (v : ℚ) (j : Nat) :
    surfAt (setNodeResult s i v) j = surfAt s j := rfl

theorem nodeAt_setSurfTmeanAir (s : MundtZoneState) (i : Nat) (v : ℚ) (j : Nat) :
    nodeAt (setSurfTmeanAir s i v) j = nodeAt s j := rfl

theorem tMeanAir_setSurfTmeanAir_self (s : MundtZoneState) (i : Nat) (v : ℚ)
    (h : i - 1 < s.mundtAirSurf.length) : (surfAt (setSurfTmeanAir s i v) i).tMeanAir = v := by
  simp [surfAt, setSurfTmeanAir, List.getD_eq_getElem?_getD, List.getElem?_set_self, h]

theorem surfAt_setSurfTmeanAir_ne (s : MundtZoneState) (i : Nat) (v : ℚ) (j : Nat)
    (h : i - 1 ≠ j - 1) : surfAt (setSurfTmeanAir s i v) j = surfAt s j := by
  simp [surfAt, setSurfTmeanAir, List.getD_eq_getElem?_getD, List.getElem?_set_ne h]

theorem area_setSurfTmeanAir (s : MundtZoneState) (i : Nat) (v : ℚ) (j : Nat) :
    (surfAt (setSurfTmeanAir s i v) j).area = (surfAt s j).area := by
  by_cases h : i - 1 = j - 1
  · by_cases hlt : i - 1 < s.mundtAirSurf.length
    · simp [surfAt, setSurfTmeanAir, List.getD_eq_getElem?_getD, ← h,
        List.getElem?_set_self, hlt]
    · simp [surfAt, setSurfTmeanAir, List.set_eq_of_length_le (Nat.le_of_not_lt hlt)]
  · simp [surfAt_setSurfTmeanAir_ne s i v j h]

/-! Invariance of state components along the write loops of the solver. -/

theorem foldl_pres {σ α β : Type} (step : σ → α → σ) (g : σ → β)
    (hg : ∀ st a, g (step st a) = g st) (l : List α) (st : σ) :
    g (l.foldl step st) = g st := by
  induction l generalizing st with
  | nil => rfl
  | cons a l ih => rw [List.foldl_cons, ih, hg]

theorem nodeAt_congr {s t : MundtZoneState} (h : s.lineNode = t.lineNode) (j : Nat) :
    nodeAt s j = nodeAt t j := by simp [nodeAt, h]

theorem surfFold_lineNode (v : ℚ) (l : List Nat) (st : MundtZoneState) :
    (l.foldl (fun st2 sid => setSurfTmeanAir st2 sid v) st).lineNode = st.lineNode :=
  foldl_pres (fun st2 sid => setSurfTmeanAir st2 sid v) (fun s => s.lineNode) (fun _ _ => rfl) l st

theorem surfFold_tmeanWriteLog (v : ℚ) (l : List Nat) (st : MundtZoneState) :
    (l.foldl (fun st2 sid => setSurfTmeanAir st2 sid v) st).tmeanWriteLog =
      st.tmeanWriteLog ++ l := by
  induction l generalizing st with
  | nil => simp
  | cons a l ih => rw [List.foldl_cons, ih]; simp [setSurfTmeanAir]

theorem surfFold_area (v : ℚ) (l : List Nat) (st : MundtZoneState) (j : Nat) :
    (surfAt (l.foldl (fun st2 sid => setSurfTmeanAir st2 sid v) st) j).area =
      (surfAt st j).area := by
  induction l generalizing st with
  | nil => rfl
  | cons a l ih => simp [List.foldl_cons, ih, area_setSurfTmeanAir]

theorem heightAt_roomNodeStep (tl sl : ℚ) (st : MundtZoneState) (a j : Nat) :
    heightAt (roomNodeStep tl sl st a) j = heightAt st j := by
  show (nodeAt (roomNodeStep tl sl st a) j).height = _
  simp only [roomNodeStep]
  rw [nodeAt_congr (surfFold_lineNode _ _ _) j]
  exact heightAt_setNodeResult st a _ j

theorem surfMask_roomNodeStep (tl sl : ℚ) (st : MundtZoneState) (a j : Nat) :
    (nodeAt (roomNodeStep tl sl st a) j).surfMask = (nodeAt st j).surfMask := by
  simp only [roomNodeStep]
  rw [nodeAt_congr (surfFold_lineNode _ _ _) j]
  exact surfMask_setNodeResult st a _ j

theorem returnNodeID_roomNodeStep (tl sl : ℚ) (st : MundtZoneState) (a : Nat) :
    (roomNodeStep tl sl st a).returnNodeID = st.returnNodeID := by
  simp only [roomNodeStep]
  exact (foldl_pres (fun st2 sid => setSurfTmeanAir st2 sid _) (fun s => s.returnNodeID)
    (fun _ _ => rfl) _ _).trans rfl

theorem lineNode_length_roomNodeStep (tl sl : ℚ) (st : MundtZoneState) (a : Nat) :
    (roomNodeStep tl sl st a).lineNode.length = st.lineNode.length := by
  simp only [roomNodeStep]
  rw [surfFold_lineNode]
  exact lineNode_length_setNodeResult st a _

theorem tempAt_roomNodeStep_ne (tl sl : ℚ) (st : MundtZoneState) (a j : Nat)
    (h : a - 1 ≠ j - 1) : tempAt (roomNodeStep tl sl st a) j = tempAt st j := by
  show (nodeAt _ j).temp = _
  simp only [roomNodeStep]
  rw [nodeAt_congr (surfFold_lineNode _ _ _) j, nodeAt_setNodeResult_ne st a _ j h]
  rfl

theorem tempAt_roomNodeStep_self (tl sl : ℚ) (st : MundtZoneState) (a : Nat)
    (h : a - 1 < st.lineNode.length) :
    tempAt (roomNodeStep tl sl st a) a =
      tl - sl * (heightAt st st.returnNodeID - heightAt st a) := by
  show (nodeAt _ a).temp = _
  simp only [roomNodeStep]
  rw [nodeAt_congr (surfFold_lineNode _ _ _) a]
  exact tempAt_setNodeResult_self st a _ h

theorem tmeanWriteLog_roomNodeStep (tl sl : ℚ) (st : MundtZoneState) (a : Nat) :
    (roomNodeStep tl sl st a).tmeanWriteLog =
      st.tmeanWriteLog ++ maskIndices (nodeAt st a).surfMask := by
  simp only [roomNodeStep]
  rw [surfFold_tmeanWriteLog, surfMask_setNodeResult]
  rfl

theorem area_roomNodeStep (tl sl : ℚ) (st : MundtZoneState) (a j : Nat) :
    (surfAt (roomNodeStep tl sl st a) j).area = (surfAt st j).area := by
  simp only [roomNodeStep]
  rw [surfFold_area, surfAt_setNodeResult]

/-- Temperatures of nodes outside the room-node list are untouched by the
room-node loop. -/
theorem roomFold_tempAt_ne (tl sl : ℚ) (l : List Nat) (st : MundtZoneState) (j : Nat)
    (h : ∀ r ∈ l, r - 1 ≠ j - 1) :
    tempAt (l.foldl (roomNodeStep tl sl) st) j = tempAt st j := by
  induction l generalizing st with
  | nil => rfl
  | cons a l ih =>
    rw [List.foldl_cons, ih _ fun r hr => h r (List.mem_cons_of_mem a hr)]
    exact tempAt_roomNodeStep_ne tl sl st a j (h a (List.mem_cons_self a l))

theorem roomFold_heightAt (tl sl : ℚ) (l : List Nat) (st : MundtZoneState) (j : Nat) :
    heightAt (l.foldl (roomNodeStep tl sl) st) j = heightAt st j := by
  induction l generalizing st with
  | nil => rfl
  | cons a l ih => rw [List.foldl_cons, ih, heightAt_roomNodeStep]

theorem roomFold_returnNodeID (tl sl : ℚ) (l : List Nat) (st : MundtZoneState) :
    (l.foldl (roomNodeStep tl sl) st).returnNodeID = st.returnNodeID :=
  foldl_pres (roomNodeStep tl sl) (fun s => s.returnNodeID)
    (fun st a => returnNodeID_roomNodeStep tl sl st a) l st

theorem roomFold_length (tl sl : ℚ) (l : List Nat) (st : MundtZoneState) :
    (l.foldl (roomNodeStep tl sl) st).lineNode.length = st.lineNode.length :=
  foldl_pres (roomNodeStep tl sl) (fun s => s.lineNode.length)
    (fun st a => lineNode_length_roomNodeStep tl sl st a) l st

/-- Every node in the room-node list ends with the gradient-line temperature
at its own height, anchored at the Return node's height. -/
theorem roomFold_tempAt_mem (tl sl : ℚ) (l : List Nat) (st : MundtZoneState) (j : Nat)
    (hj : j ∈ l) (hb : ∀ r ∈ l, 1 ≤ r ∧ r ≤ st.lineNode.length) :
    tempAt (l.foldl (roomNodeStep tl sl) st) j =
      tl - sl * (heightAt st st.returnNodeID - heightAt st j) := by
  induction l generalizing st with
  | nil => exact absurd hj (List.not_mem_nil j)
  | cons a l ih =>
    rw [List.foldl_cons]
    by_cases hmem : j ∈ l
    · rw [ih _ hmem fun r hr => by
        have := hb r (List.mem_cons_of_mem a hr)
        exact ⟨this.1, this.2.trans_eq (lineNode_length_roomNodeStep tl sl st a).symm⟩]
      rw [heightAt_roomNodeStep, heightAt_roomNodeStep, returnNodeID_roomNodeStep]
    · have hja : j = a := by
        rcases List.mem_cons.mp hj with h | h
        · exact h
        · exact absurd h hmem
      subst hja
      have hpres : tempAt (l.foldl (roomNodeStep tl sl) (roomNodeStep tl sl st j)) j =
          tempAt (roomNodeStep tl sl st j) j := by
        apply roomFold_tempAt_ne
        intro r hr hrj
        have hr1 := (hb r (List.mem_cons_of_mem j hr)).1
        have hj1 := (hb j (List.mem_cons_self j l)).1
        have hrje : r = j := by omega
        exact absurd (hrje ▸ hr) hmem
      rw [hpres]
      exact tempAt_roomNodeStep_self tl sl st j
        (by have := hb j (List.mem_cons_self j l); omega)

/-- The room-node loop appends to the ghost write log exactly the surface
sets of the listed nodes, in order. -/
theorem roomFold_tmeanWriteLog (tl sl : ℚ) (l : List Nat) (st : MundtZoneState) :
    (l.foldl (roomNodeStep tl sl) st).tmeanWriteLog =
      st.tmeanWriteLog ++ (l.map fun nid => maskIndices (nodeAt st nid).surfMask).flatten := by
  induction l generalizing st with
  | nil => simp
  | cons a l ih =>
    rw [List.foldl_cons, ih, tmeanWriteLog_roomNodeStep]
    have hmask : ∀ nid, (nodeAt (roomNodeStep tl sl st a) nid).surfMask =
        (nodeAt st nid).surfMask := fun nid => surfMask_roomNodeStep tl sl st a nid
    simp [hmask, List.append_assoc]

theorem roomFold_area (tl sl : ℚ) (l : List Nat) (st : MundtZoneState) (j : Nat) :
    (surfAt (l.foldl (roomNodeStep tl sl) st) j).area = (surfAt st j).area := by
  induction l generalizing st with
  | nil => rfl
  | cons a l ih => rw [List.foldl_cons, ih, area_roomNodeStep]

/-! Projection facts: each setter touches only its own component. -/

theorem tempAt_setNodeResult_ne (s : MundtZoneState) (i : Nat) (v : ℚ) (j : Nat)
    (h : i - 1 ≠ j - 1) : tempAt (setNodeResult s i v) j = tempAt s j :=
  congrArg (fun nd => nd.temp) (nodeAt_setNodeResult_ne s i v j h)

theorem tempAt_congr {s t : MundtZoneState} (h : s.lineNode = t.lineNode) (j : Nat) :
    tempAt s j = tempAt t j := congrArg (fun nd => nd.temp) (nodeAt_congr h j)

theorem setNodeResult_supplyNodeID (s : MundtZoneState) (i : Nat) (v : ℚ) :
    (setNodeResult s i v).supplyNodeID = s.supplyNodeID := rfl

theorem setNodeResult_returnNodeID (s : MundtZoneState) (i : Nat) (v : ℚ) :
    (setNodeResult s i v).returnNodeID = s.returnNodeID := rfl

theorem setNodeResult_mundtCeilAirID (s : MundtZoneState) (i : Nat) (v : ℚ) :
    (setNodeResult s i v).mundtCeilAirID = s.mundtCeilAirID := rfl

theorem setNodeResult_mundtFootAirID (s : MundtZoneState) (i : Nat) (v : ℚ) :
    (setNodeResult s i v).mundtFootAirID = s.mundtFootAirID := rfl

theorem setNodeResult_tstatNodeID (s : MundtZoneState) (i : Nat) (v : ℚ) :
    (setNodeResult s i v).tstatNodeID = s.tstatNodeID := rfl

theorem writeNode_mundtAirSurf (tl a f c : ℚ) (s : MundtZoneState) :
    (writeNodeResults tl a f c s).mundtAirSurf = s.mundtAirSurf := rfl

theorem writeNode_tmeanWriteLog (tl a f c : ℚ) (s : MundtZoneState) :
    (writeNodeResults tl a f c s).tmeanWriteLog = s.tmeanWriteLog := rfl

theorem writeNode_floorSurfSetIDs (tl a f c : ℚ) (s : MundtZoneState) :
    (writeNodeResults tl a f c s).floorSurfSetIDs = s.floorSurfSetIDs := rfl

theorem writeNode_numFloorSurfs (tl a f c : ℚ) (s : MundtZoneState) :
    (writeNodeResults tl a f c s).numFloorSurfs = s.numFloorSurfs := rfl

theorem writeNode_roomNodeIDs (tl a f c : ℚ) (s : MundtZoneState) :
    (writeNodeResults tl a f c s).roomNodeIDs = s.roomNodeIDs := rfl

theorem writeNode_numRoomNodes (tl a f c : ℚ) (s : MundtZoneState) :
    (writeNodeResults tl a f c s).numRoomNodes = s.numRoomNodes := rfl

theorem writeNode_mundtCeilAirID (tl a f c : ℚ) (s : MundtZoneState) :
    (writeNodeResults tl a f c s).mundtCeilAirID = s.mundtCeilAirID := rfl

theorem writeNode_returnNodeID (tl a f c : ℚ) (s : MundtZoneState) :
    (writeNodeResults tl a f c s).returnNodeID = s.returnNodeID := rfl

theorem writeNode_heightAt (tl a f c : ℚ) (s : MundtZoneState) (j : Nat) :
    heightAt (writeNodeResults tl a f c s) j = heightAt s j := by
  simp only [writeNodeResults, heightAt_setNodeResult]

theorem writeNode_surfMask (tl a f c : ℚ) (s : MundtZoneState) (j : Nat) :
    (nodeAt (writeNodeResults tl a f c s) j).surfMask = (nodeAt s j).surfMask := by
  simp only [writeNodeResults, surfMask_setNodeResult]

theorem writeNode_length (tl a f c : ℚ) (s : MundtZoneState) :
    (writeNodeResults tl a f c s).lineNode.length = s.lineNode.length := by
  simp only [writeNodeResults, lineNode_length_setNodeResult]

/-- After the node-result writes, the ceiling node holds `TAirCeil`:
the floor and control writes that follow target other indices. -/
theorem writeNode_tempAt_ceil (tl a f c : ℚ) (s : MundtZoneState)
    (h2 : s.mundtCeilAirID - 1 < s.lineNode.length)
    (hcf : s.mundtFootAirID - 1 ≠ s.mundtCeilAirID - 1)
    (hct : s.tstatNodeID - 1 ≠ s.mundtCeilAirID - 1) :
    tempAt (writeNodeResults tl a f c s) s.mundtCeilAirID = a := by
  simp only [writeNodeResults, setNodeResult_tstatNodeID, setNodeResult_mundtFootAirID,
    setNodeResult_mundtCeilAirID, setNodeResult_returnNodeID]
  rw [tempAt_setNodeResult_ne _ _ _ _ hct, tempAt_setNodeResult_ne _ _ _ _ hcf]
  exact tempAt_setNodeResult_self _ _ _ (by
    simp only [lineNode_length_setNodeResult]; exact h2)

/-- After the node-result writes, the floor node holds `TAirFoot`. -/
theorem writeNode_tempAt_foot (tl a f c : ℚ) (s : MundtZoneState)
    (h2 : s.mundtFootAirID - 1 < s.lineNode.length)
    (hft : s.tstatNodeID - 1 ≠ s.mundtFootAirID - 1) :
    tempAt (writeNodeResults tl a f c s) s.mundtFootAirID = f := by
  simp only [writeNodeResults, setNodeResult_tstatNodeID, setNodeResult_mundtFootAirID,
    setNodeResult_mundtCeilAirID, setNodeResult_returnNodeID]
  rw [tempAt_setNodeResult_ne _ _ _ _ hft]
  exact tempAt_setNodeResult_self _ _ _ (by
    simp only [lineNode_length_setNodeResult]; exact h2)

/-- After the node-result writes, the control node holds `TControlPoint`. -/
theorem writeNode_tempAt_tstat (tl a f c : ℚ) (s : MundtZoneState)
    (h2 : s.tstatNodeID - 1 < s.lineNode.length) :
    tempAt (writeNodeResults tl a f c s) s.tstatNodeID = c := by
  simp only [writeNodeResults, setNodeResult_tstatNodeID, setNodeResult_mundtFootAirID,
    setNodeResult_mundtCeilAirID, setNodeResult_returnNodeID]
  exact tempAt_setNodeResult_self _ _ _ (by
    simp only [lineNode_length_setNodeResult]; exact h2)

theorem setSurfTmeanAir_lineNode (s : MundtZoneState) (i : Nat) (v : ℚ) :
    (setSurfTmeanAir s i v).lineNode = s.lineNode := rfl

theorem setSurfTmeanAir_surfLength (s : MundtZoneState) (i : Nat) (v : ℚ) :
    (setSurfTmeanAir s i v).mundtAirSurf.length = s.mundtAirSurf.length := by
  simp [setSurfTmeanAir]

theorem roomNodeStep_surfLength (tl sl : ℚ) (st : MundtZoneState) (a : Nat) :
    (roomNodeStep tl sl st a).mundtAirSurf.length = st.mundtAirSurf.length := by
  simp only [roomNodeStep]
  rw [foldl_pres (fun st2 sid => setSurfTmeanAir st2 sid _) (fun s => s.mundtAirSurf.length)
    (fun st2 sid => setSurfTmeanAir_surfLength st2 sid _)]
  rfl

theorem surfFold_proj {β : Type} (v : ℚ) (g : MundtZoneState → β)
    (hg : ∀ st i, g (setSurfTmeanAir st i v) = g st) (l : List Nat) (st : MundtZoneState) :
    g (l.foldl (fun st2 sid => setSurfTmeanAir st2 sid v) st) = g st :=
  foldl_pres (fun st2 sid => setSurfTmeanAir st2 sid v) g (fun st2 sid => hg st2 sid) l st

/-- Temperatures of nodes outside the (taken) room-node list survive the whole
surface/room fan-out unchanged. -/
theorem writeSurf_tempAt_ne (tl sl f a : ℚ) (s5 : MundtZoneState) (j : Nat)
    (hj : ∀ r ∈ s5.roomNodeIDs.take s5.numRoomNodes, r - 1 ≠ j - 1) :
    tempAt (writeSurfResults tl sl f a s5) j = tempAt s5 j := by
  simp only [writeSurfResults]
  rw [surfFold_proj a (fun s => s.roomNodeIDs) (fun _ _ => rfl),
    surfFold_proj f (fun s => s.roomNodeIDs) (fun _ _ => rfl),
    surfFold_proj a (fun s => s.numRoomNodes) (fun _ _ => rfl),
    surfFold_proj f (fun s => s.numRoomNodes) (fun _ _ => rfl),
    roomFold_tempAt_ne _ _ _ _ _ hj,
    tempAt_congr (surfFold_lineNode _ _ _) j, tempAt_congr (surfFold_lineNode _ _ _) j]

/-- Every (taken) room node ends with the gradient-line temperature at its own
height after the surface/room fan-out. -/
theorem writeSurf_tempAt_room (tl sl f a : ℚ) (s5 : MundtZoneState) (j : Nat)
    (hj : j ∈ s5.roomNodeIDs.take s5.numRoomNodes)
    (hb : ∀ r ∈ s5.roomNodeIDs.take s5.numRoomNodes, 1 ≤ r ∧ r ≤ s5.lineNode.length) :
    tempAt (writeSurfResults tl sl f a s5) j =
      tl - sl * (heightAt s5 s5.returnNodeID - heightAt s5 j) := by
  simp only [writeSurfResults]
  rw [surfFold_proj a (fun s => s.roomNodeIDs) (fun _ _ => rfl),
    surfFold_proj f (fun s => s.roomNodeIDs) (fun _ _ => rfl),
    surfFold_proj a (fun s => s.numRoomNodes) (fun _ _ => rfl),
    surfFold_proj f (fun s => s.numRoomNodes) (fun _ _ => rfl)]
  rw [roomFold_tempAt_mem tl sl _ _ j hj (by
    intro r hr
    refine ⟨(hb r hr).1, ?_⟩
    rw [congrArg List.length (surfFold_lineNode _ _ _),
      congrArg List.length (surfFold_lineNode _ _ _)]
    exact (hb r hr).2)]
  rw [surfFold_proj a (fun s => s.returnNodeID) (fun _ _ => rfl),
    surfFold_proj f (fun s => s.returnNodeID) (fun _ _ => rfl)]
  have hh : ∀ x, heightAt ((maskIndices (nodeAt ((s5.floorSurfSetIDs.take
      s5.numFloorSurfs).foldl (fun st sid => setSurfTmeanAir st sid f) s5)
      ((s5.floorSurfSetIDs.take s5.numFloorSurfs).foldl
        (fun st sid => setSurfTmeanAir st sid f) s5).mundtCeilAirID).surfMask).foldl
      (fun st sid => setSurfTmeanAir st sid a)
      ((s5.floorSurfSetIDs.take s5.numFloorSurfs).foldl
        (fun st sid => setSurfTmeanAir st sid f) s5)) x = heightAt s5 x := by
    intro x
    show (nodeAt _ x).height = _
    rw [nodeAt_congr (surfFold_lineNode _ _ _) x, nodeAt_congr (surfFold_lineNode _ _ _) x]
    rfl
  rw [hh, hh]

theorem surfFold_nodeAt (v : ℚ) (l : List Nat) (st : MundtZoneState) (x : Nat) :
    nodeAt (l.foldl (fun st2 sid => setSurfTmeanAir st2 sid v) st) x = nodeAt st x :=
  nodeAt_congr (surfFold_lineNode v l st) x

theorem surfFold_mundtCeilAirID (v : ℚ) (l : List Nat) (st : MundtZoneState) :
    (l.foldl (fun st2 sid => setSurfTmeanAir st2 sid v) st).mundtCeilAirID =
      st.mundtCeilAirID := surfFold_proj v (fun s => s.mundtCeilAirID) (fun _ _ => rfl) l st

theorem surfFold_roomNodeIDs (v : ℚ) (l : List Nat) (st : MundtZoneState) :
    (l.foldl (fun st2 sid => setSurfTmeanAir st2 sid v) st).roomNodeIDs =
      st.roomNodeIDs := surfFold_proj v (fun s => s.roomNodeIDs) (fun _ _ => rfl) l st

theorem surfFold_numRoomNodes (v : ℚ) (l : List Nat) (st : MundtZoneState) :
    (l.foldl (fun st2 sid => setSurfTmeanAir st2 sid v) st).numRoomNodes =
      st.numRoomNodes := surfFold_proj v (fun s => s.numRoomNodes) (fun _ _ => rfl) l st

theorem surfFold_surfLength (v : ℚ) (l : List Nat) (st : MundtZoneState) :
    (l.foldl (fun st2 sid => setSurfTmeanAir st2 sid v) st).mundtAirSurf.length =
      st.mundtAirSurf.length :=
  surfFold_proj v (fun s => s.mundtAirSurf.length)
    (fun st2 sid => setSurfTmeanAir_surfLength st2 sid v) l st

/-- The surface fan-out appends to the ghost write log exactly the floor
surface set, then the ceiling mask set, then the room-node mask sets. -/
theorem writeSurf_tmeanWriteLog (tl sl f a : ℚ) (s5 : MundtZoneState) :
    (writeSurfResults tl sl f a s5).tmeanWriteLog =
      s5.tmeanWriteLog ++ (s5.floorSurfSetIDs.take s5.numFloorSurfs ++
        maskIndices (nodeAt s5 s5.mundtCeilAirID).surfMask ++
        ((s5.roomNodeIDs.take s5.numRoomNodes).map fun nid =>
          maskIndices (nodeAt s5 nid).surfMask).flatten) := by
  simp only [writeSurfResults, surfFold_nodeAt, surfFold_mundtCeilAirID,
    surfFold_roomNodeIDs, surfFold_numRoomNodes]
  rw [roomFold_tmeanWriteLog]
  simp only [surfFold_nodeAt, surfFold_tmeanWriteLog, List.append_assoc]

theorem writeSurf_area (tl sl f a : ℚ) (s5 : MundtZoneState) (j : Nat) :
    (surfAt (writeSurfResults tl sl f a s5) j).area = (surfAt s5 j).area := by
  simp only [writeSurfResults]
  rw [roomFold_area, surfFold_area, surfFold_area]

theorem writeSurf_surfLength (tl sl f a : ℚ) (s5 : MundtZoneState) :
    (writeSurfResults tl sl f a s5).mundtAirSurf.length = s5.mundtAirSurf.length := by
  simp only [writeSurfResults]
  rw [foldl_pres (roomNodeStep tl sl) (fun s => s.mundtAirSurf.length)
    (fun st a2 => roomNodeStep_surfLength tl sl st a2), surfFold_surfLength, surfFold_surfLength]

/-! The slope check (lines 691-698). -/

theorem slopeClamp_mem (tl ta s0 d : ℚ) :
    MinSlope ≤ (slopeClamp tl ta s0 d).1 ∧ (slopeClamp tl ta s0 d).1 ≤ MaxSlope := by
  by_cases h2 : MaxSlope < s0
  · simp only [slopeClamp, if_pos h2]
    norm_num [MinSlope, MaxSlope]
  · simp only [slopeClamp, if_neg h2]
    by_cases h3 : s0 < MinSlope
    · simp only [if_pos h3]
      norm_num [MinSlope, MaxSlope]
    · simp only [if_neg h3]
      exact ⟨le_of_not_lt h3, le_of_not_lt h2⟩

theorem slopeClamp_high (tl ta s0 d : ℚ) (h : MaxSlope < s0) :
    slopeClamp tl ta s0 d = (MaxSlope, tl - MaxSlope * d) := by
  simp only [slopeClamp, if_pos h]
  norm_num [MinSlope, MaxSlope]

theorem slopeClamp_low (tl ta s0 d : ℚ) (h : s0 < MinSlope) :
    slopeClamp tl ta s0 d = (MinSlope, tl) := by
  have h2 : ¬ MaxSlope < s0 := by
    simp only [MinSlope, MaxSlope] at h ⊢
    intro hc
    linarith
  simp only [slopeClamp, if_neg h2]
  exact if_pos h

theorem slopeClamp_mid (tl ta s0 d : ℚ) (h1 : MinSlope ≤ s0) (h2 : ¬ MaxSlope < s0) :
    slopeClamp tl ta s0 d = (s0, ta) := by
  simp only [slopeClamp, if_neg h2]
  exact if_neg (not_lt.mpr h1)

/-- Whenever the raw slope is at least `MinSlope` and the height difference is
nonzero, the clamped `TAirFoot` lies on the gradient line through `TLeaving`. -/
theorem slopeClamp_onLine (tl ta d : ℚ) (hd : d ≠ 0)
    (h1 : MinSlope ≤ (tl - ta) / d) :
    (slopeClamp tl ta ((tl - ta) / d) d).2 =
      tl - (slopeClamp tl ta ((tl - ta) / d) d).1 * d := by
  by_cases h2 : MaxSlope < (tl - ta) / d
  · rw [slopeClamp_high _ _ _ _ h2]
  · rw [slopeClamp_mid _ _ _ _ h1 h2]
    field_simp

/-! Ghost outputs and final node temperatures of the solver. -/

theorem calc_calcSlope (cs ifs : ℚ) (s : MundtZoneState) :
    (calcMundtModel cs ifs s).calcSlope = (clampedPair cs ifs s).1 := rfl

theorem calc_calcTAirFoot (cs ifs : ℚ) (s : MundtZoneState) :
    (calcMundtModel cs ifs s).calcTAirFoot = (clampedPair cs ifs s).2 := rfl

theorem calc_calcTLeaving (cs ifs : ℚ) (s : MundtZoneState) :
    (calcMundtModel cs ifs s).calcTLeaving = tLeavingOf s := rfl

theorem calc_calcTAirCeil (cs ifs : ℚ) (s : MundtZoneState) :
    (calcMundtModel cs ifs s).calcTAirCeil =
      tLeavingOf s - (clampedPair cs ifs s).1 *
        (heightAt s s.returnNodeID - heightAt s s.mundtCeilAirID) := rfl

theorem calc_calcTControl (cs ifs : ℚ) (s : MundtZoneState) :
    (calcMundtModel cs ifs s).calcTControl =
      tLeavingOf s - (clampedPair cs ifs s).1 *
        (heightAt s s.returnNodeID - heightAt s s.tstatNodeID) := rfl

theorem calc_tempAt_eq (cs ifs : ℚ) (s : MundtZoneState) (j : Nat) :
    tempAt (calcMundtModel cs ifs s) j =
      tempAt (writeSurfResults (tLeavingOf s) (clampedPair cs ifs s).1 (clampedPair cs ifs s).2
        (tLeavingOf s - (clampedPair cs ifs s).1 *
          (heightAt s s.returnNodeID - heightAt s s.mundtCeilAirID))
        (writeNodeResults (tLeavingOf s)
          (tLeavingOf s - (clampedPair cs ifs s).1 *
            (heightAt s s.returnNodeID - heightAt s s.mundtCeilAirID))
          (clampedPair cs ifs s).2
          (tLeavingOf s - (clampedPair cs ifs s).1 *
            (heightAt s s.returnNodeID - heightAt s s.tstatNodeID)) s)) j := rfl

/-- The solved ceiling-node temperature is the gradient-line interpolation at
the Ceiling node's height, anchored at the Return node's height. -/
theorem calc_tempAt_ceil (cs ifs : ℚ) (s : MundtZoneState)
    (h2 : s.mundtCeilAirID - 1 < s.lineNode.length)
    (hcf : s.mundtFootAirID - 1 ≠ s.mundtCeilAirID - 1)
    (hct : s.tstatNodeID - 1 ≠ s.mundtCeilAirID - 1)
    (hcr : ∀ r ∈ s.roomNodeIDs.take s.numRoomNodes, r - 1 ≠ s.mundtCeilAirID - 1) :
    tempAt (calcMundtModel cs ifs s) s.mundtCeilAirID =
      tLeavingOf s - (clampedPair cs ifs s).1 *
        (heightAt s s.returnNodeID - heightAt s s.mundtCeilAirID) := by
  rw [calc_tempAt_eq]
  rw [writeSurf_tempAt_ne _ _ _ _ _ _ (by
    rw [writeNode_roomNodeIDs, writeNode_numRoomNodes]
    exact hcr)]
  exact writeNode_tempAt_ceil _ _ _ _ s h2 hcf hct

/-- The solved control-node temperature is the gradient-line interpolation at
the Control node's height, anchored at the Return node's height. -/
theorem calc_tempAt_tstat (cs ifs : ℚ) (s : MundtZoneState)
    (h2 : s.tstatNodeID - 1 < s.lineNode.length)
    (htr : ∀ r ∈ s.roomNodeIDs.take s.numRoomNodes, r - 1 ≠ s.tstatNodeID - 1) :
    tempAt (calcMundtModel cs ifs s) s.tstatNodeID =
      tLeavingOf s - (clampedPair cs ifs s).1 *
        (heightAt s s.returnNodeID - heightAt s s.tstatNodeID) := by
  rw [calc_tempAt_eq]
  rw [writeSurf_tempAt_ne _ _ _ _ _ _ (by
    rw [writeNode_roomNodeIDs, writeNode_numRoomNodes]
    exact htr)]
  exact writeNode_tempAt_tstat _ _ _ _ s h2

/-- The solved floor-node temperature is the clamped `TAirFoot`. -/
theorem calc_tempAt_foot (cs ifs : ℚ) (s : MundtZoneState)
    (h2 : s.mundtFootAirID - 1 < s.lineNode.length)
    (hft : s.tstatNodeID - 1 ≠ s.mundtFootAirID - 1)
    (hfr : ∀ r ∈ s.roomNodeIDs.take s.numRoomNodes, r - 1 ≠ s.mundtFootAirID - 1) :
    tempAt (calcMundtModel cs ifs s) s.mundtFootAirID = (clampedPair cs ifs s).2 := by
  rw [calc_tempAt_eq]
  rw [writeSurf_tempAt_ne _ _ _ _ _ _ (by
    rw [writeNode_roomNodeIDs, writeNode_numRoomNodes]
    exact hfr)]
  exact writeNode_tempAt_foot _ _ _ _ s h2 hft

/-- Every room node's solved temperature is the gradient-line interpolation
at its own height, anchored at the Return node's height. -/
theorem calc_tempAt_room (cs ifs : ℚ) (s : MundtZoneState) (j : Nat)
    (hj : j ∈ s.roomNodeIDs.take s.numRoomNodes)
    (hb : ∀ r ∈ s.roomNodeIDs.take s.numRoomNodes, 1 ≤ r ∧ r ≤ s.lineNode.length) :
    tempAt (calcMundtModel cs ifs s) j =
      tLeavingOf s - (clampedPair cs ifs s).1 *
        (heightAt s s.returnNodeID - heightAt s j) := by
  rw [calc_tempAt_eq]
  rw [writeSurf_tempAt_room _ _ _ _ _ j (by
      rw [writeNode_roomNodeIDs, writeNode_numRoomNodes]
      exact hj) (by
      rw [writeNode_roomNodeIDs, writeNode_numRoomNodes]
      intro r hr
      rw [writeNode_length]
      exact hb r hr)]
  rw [writeNode_returnNodeID, writeNode_heightAt, writeNode_heightAt]

/-- The list of surface IDs written by the solver's `SetSurfTmeanAir` calls,
in source order: floor surface set, ceiling mask set, then the mask set of
each room node. -/
def calcTmeanWrites (s : MundtZoneState) : List Nat :=
  s.floorSurfSetIDs.take s.numFloorSurfs ++ maskIndices (nodeAt s s.mundtCeilAirID).surfMask ++
    ((s.roomNodeIDs.take s.numRoomNodes).map fun nid => maskIndices (nodeAt s nid).surfMask).flatten

theorem calc_tmeanWriteLog (cs ifs : ℚ) (s : MundtZoneState) :
    (calcMundtModel cs ifs s).tmeanWriteLog = s.tmeanWriteLog ++ calcTmeanWrites s := by
  show (writeSurfResults _ _ _ _ (writeNodeResults _ _ _ _ s)).tmeanWriteLog = _
  rw [writeSurf_tmeanWriteLog]
  simp only [writeNode_tmeanWriteLog, writeNode_floorSurfSetIDs, writeNode_numFloorSurfs,
    writeNode_surfMask, writeNode_mundtCeilAirID, writeNode_roomNodeIDs, writeNode_numRoomNodes,
    calcTmeanWrites, List.append_assoc]

theorem calc_area (cs ifs : ℚ) (s : MundtZoneState) (j : Nat) :
    (surfAt (calcMundtModel cs ifs s) j).area = (surfAt s j).area := by
  show (surfAt (writeSurfResults _ _ _ _ (writeNodeResults _ _ _ _ s)) j).area = _
  rw [writeSurf_area]
  rfl

theorem calc_surfLength (cs ifs : ℚ) (s : MundtZoneState) :
    (calcMundtModel cs ifs s).mundtAirSurf.length = s.mundtAirSurf.length := by
  show (writeSurfResults _ _ _ _ (writeNodeResults _ _ _ _ s)).mundtAirSurf.length = _
  rw [writeSurf_surfLength]
  rfl

theorem roomNodeStep_supplyAirVolumeRate (tl sl : ℚ) (st : MundtZoneState) (a : Nat) :
    (roomNodeStep tl sl st a).supplyAirVolumeRate = st.supplyAirVolumeRate := by
  simp only [roomNodeStep]
  exact (foldl_pres (fun st2 sid => setSurfTmeanAir st2 sid _)
    (fun s => s.supplyAirVolumeRate) (fun _ _ => rfl) _ _).trans rfl

theorem roomNodeStep_qsysCoolTot (tl sl : ℚ) (st : MundtZoneState) (a : Nat) :
    (roomNodeStep tl sl st a).qsysCoolTot = st.qsysCoolTot := by
  simp only [roomNodeStep]
  exact (foldl_pres (fun st2 sid => setSurfTmeanAir st2 sid _)
    (fun s => s.qsysCoolTot) (fun _ _ => rfl) _ _).trans rfl

theorem calc_supplyAirVolumeRate (cs ifs : ℚ) (s : MundtZoneState) :
    (calcMundtModel cs ifs s).supplyAirVolumeRate = s.supplyAirVolumeRate := by
  show (writeSurfResults _ _ _ _ (writeNodeResults _ _ _ _ s)).supplyAirVolumeRate = _
  simp only [writeSurfResults]
  rw [foldl_pres (roomNodeStep _ _) (fun st => st.supplyAirVolumeRate)
    (fun st a => roomNodeStep_supplyAirVolumeRate _ _ st a)]
  exact (surfFold_proj _ (fun st => st.supplyAirVolumeRate) (fun _ _ => rfl) _ _).trans
    ((surfFold_proj _ (fun st => st.supplyAirVolumeRate) (fun _ _ => rfl) _ _).trans rfl)

theorem calc_qsysCoolTot (cs ifs : ℚ) (s : MundtZoneState) :
    (calcMundtModel cs ifs s).qsysCoolTot = s.qsysCoolTot := by
  show (writeSurfResults _ _ _ _ (writeNodeResults _ _ _ _ s)).qsysCoolTot = _
  simp only [writeSurfResults]
  rw [foldl_pres (roomNodeStep _ _) (fun st => st.qsysCoolTot)
    (fun st a => roomNodeStep_qsysCoolTot _ _ st a)]
  exact (surfFold_proj _ (fun st => st.qsysCoolTot) (fun _ _ => rfl) _ _).trans
    ((surfFold_proj _ (fun st => st.qsysCoolTot) (fun _ _ => rfl) _ _).trans rfl)

/-! Concrete example states used by witnesses and counterexamples. -/

def mkNode (nm : String) (c : Int) (h : ℚ) (mask : List Bool) : DefineLinearModelNode :=
  { airNodeName := nm, classType := c, height := h, temp := 25, surfMask := mask }

def mkSurf (a t hcv : ℚ) : DefineSurfaceSettings :=
  { area := a, temp := t, hc := hcv, tMeanAir := 25 }

/-- A small but complete zone: six role nodes (floor at 0.1 m, room at 1.2 m,
control at 1.1 m, ceiling at 2.3 m, return at 2.4 m), two surfaces, the
first of which is the floor surface. -/
def baseZoneState : MundtZoneState := { initialMundtState with
  lineNode := [mkNode "SUPPLY" InletAirNode 0 [false, false],
    mkNode "FLOOR" FloorAirNode (1/10) [true, false],
    mkNode "ROOM" MundtRoomAirNode (6/5) [false, true],
    mkNode "CEILING" CeilingAirNode (23/10) [false, false],
    mkNode "RETURN" ReturnAirNode (12/5) [false, false],
    mkNode "CONTROL" ControlAirNode (11/10) [false, false]]
  mundtAirSurf := [mkSurf 10 20 2, mkSurf 8 22 2]
  floorSurf := [mkSurf 10 20 2]
  floorSurfSetIDs := [1]
  numFloorSurfs := 1
  roomNodeIDs := [3]
  numRoomNodes := 1
  supplyNodeID := 1
  mundtFootAirID := 2
  tstatNodeID := 6
  mundtCeilAirID := 4
  returnNodeID := 5
  supplyAirTemp := 15
  supplyAirVolumeRate := 1
  zoneAirDensity := 1
  qsysCoolTot := 1000 }

/-- C1's witness state. -/
def c1ex : MundtZoneState := baseZoneState

/-- A state whose cooling load is negative (system off / heating). -/
def c2a : MundtZoneState := { baseZoneState with qsysCoolTot := -5 }

/-- A state with a small positive cooling load. -/
def c2b : MundtZoneState := { baseZoneState with qsysCoolTot := 7 }

/-- A state whose raw slope falls below `MinSlope` (tiny load, no floor
surfaces). -/
def c3lo : MundtZoneState := { baseZoneState with qsysCoolTot := 1, floorSurf := [] }

/-- A state whose raw slope exceeds `MaxSlope` (huge load, no floor
surfaces). -/
def c3hi : MundtZoneState := { baseZoneState with qsysCoolTot := 100000, floorSurf := [] }

/-- C5's counterexample state: a solved zone (gate thresholds met) whose raw
slope falls below `MinSlope`, with the single room node at 1.2 m between
floor (0.1 m) and ceiling (2.3 m). -/
def c5ex : MundtZoneState := { baseZoneState with qsysCoolTot := 1, floorSurf := [] }

/-- C6's fixed scenario: supply 15 °C, supply volumetric flow 0.5 with unit
density, cooling load 1500 W, floor splits zero (passed as zero arguments),
floor surfaces with `Hc = 0` (combined UA zero), Return at 2.4 m and Floor at
0.1 m. -/
def c6ex : MundtZoneState := { baseZoneState with
  supplyAirVolumeRate := 1/2
  qsysCoolTot := 1500
  convIntGain := 500
  qventCool := 300
  floorSurf := [mkSurf 10 20 0] }

/-- C9's witness state: Return and Floor nodes at the same height. -/
def c9ex : MundtZoneState := { baseZoneState with
  lineNode := [mkNode "SUPPLY" InletAirNode 0 [false, false],
    mkNode "FLOOR" FloorAirNode (12/5) [true, false],
    mkNode "ROOM" MundtRoomAirNode (6/5) [false, true],
    mkNode "CEILING" CeilingAirNode (23/10) [false, false],
    mkNode "RETURN" ReturnAirNode (12/5) [false, false],
    mkNode "CONTROL" ControlAirNode (11/10) [false, false]] }

/-- C1: whenever the solver runs, the Ceiling node, the Control node and every
Room node receive the temperature `T(h) = TLeaving - Slope * (ReturnHeight - h)`
at the node's own height `h`, with the same (clamped) `Slope` and the Return
node's height as anchor — stated for in-range, mutually distinct role
indices, as role resolution produces. -/
theorem claim_C1 (cs ifs : ℚ) (s : MundtZoneState)
    (hc1 : 1 ≤ s.mundtCeilAirID) (hc2 : s.mundtCeilAirID ≤ s.lineNode.length)
    (ht1 : 1 ≤ s.tstatNodeID) (ht2 : s.tstatNodeID ≤ s.lineNode.length)
    (hf1 : 1 ≤ s.mundtFootAirID)
    (hcf : s.mundtFootAirID ≠ s.mundtCeilAirID)
    (hct : s.tstatNodeID ≠ s.mundtCeilAirID)
    (hb : ∀ r ∈ s.roomNodeIDs.take s.numRoomNodes, 1 ≤ r ∧ r ≤ s.lineNode.length)
    (hcr : s.mundtCeilAirID ∉ s.roomNodeIDs.take s.numRoomNodes)
    (htr : s.tstatNodeID ∉ s.roomNodeIDs.take s.numRoomNodes) :
    tempAt (calcMundtModel cs ifs s) s.mundtCeilAirID =
      (calcMundtModel cs ifs s).calcTLeaving - (calcMundtModel cs ifs s).calcSlope *
        (heightAt s s.returnNodeID - heightAt s s.mundtCeilAirID) ∧
    tempAt (calcMundtModel cs ifs s) s.tstatNodeID =
      (calcMundtModel cs ifs s).calcTLeaving - (calcMundtModel cs ifs s).calcSlope *
        (heightAt s s.returnNodeID - heightAt s s.tstatNodeID) ∧
    ∀ r ∈ s.roomNodeIDs.take s.numRoomNodes,
      tempAt (calcMundtModel cs ifs s) r =
        (calcMundtModel cs ifs s).calcTLeaving - (calcMundtModel cs ifs s).calcSlope *
          (heightAt s s.returnNodeID - heightAt s r) := by
  refine ⟨?_, ?_, ?_⟩
  · rw [calc_calcTLeaving, calc_calcSlope]
    exact calc_tempAt_ceil cs ifs s (by omega) (by omega) (by omega) (by
      intro r hr hre
      have hr1 := (hb r hr).1
      have hre2 : r = s.mundtCeilAirID := by omega
      exact hcr (hre2 ▸ hr))
  · rw [calc_calcTLeaving, calc_calcSlope]
    exact calc_tempAt_tstat cs ifs s (by omega) (by
      intro r hr hre
      have hr1 := (hb r hr).1
      have hre2 : r = s.tstatNodeID := by omega
      exact htr (hre2 ▸ hr))
  · intro r hr
    rw [calc_calcTLeaving, calc_calcSlope]
    exact calc_tempAt_room cs ifs s r hr hb

theorem claim_C1_witness :
    (1 ≤ c1ex.mundtCeilAirID ∧ c1ex.mundtCeilAirID ≤ c1ex.lineNode.length ∧
      1 ≤ c1ex.tstatNodeID ∧ c1ex.tstatNodeID ≤ c1ex.lineNode.length ∧
      1 ≤ c1ex.mundtFootAirID ∧ c1ex.mundtFootAirID ≠ c1ex.mundtCeilAirID ∧
      c1ex.tstatNodeID ≠ c1ex.mundtCeilAirID ∧
      (∀ r ∈ c1ex.roomNodeIDs.take c1ex.numRoomNodes, 1 ≤ r ∧ r ≤ c1ex.lineNode.length) ∧
      c1ex.mundtCeilAirID ∉ c1ex.roomNodeIDs.take c1ex.numRoomNodes ∧
      c1ex.tstatNodeID ∉ c1ex.roomNodeIDs.take c1ex.numRoomNodes) ∧
    (tempAt (calcMundtModel 0 0 c1ex) c1ex.mundtCeilAirID =
      (calcMundtModel 0 0 c1ex).calcTLeaving - (calcMundtModel 0 0 c1ex).calcSlope *
        (heightAt c1ex c1ex.returnNodeID - heightAt c1ex c1ex.mundtCeilAirID) ∧
    tempAt (calcMundtModel 0 0 c1ex) c1ex.tstatNodeID =
      (calcMundtModel 0 0 c1ex).calcTLeaving - (calcMundtModel 0 0 c1ex).calcSlope *
        (heightAt c1ex c1ex.returnNodeID - heightAt c1ex c1ex.tstatNodeID) ∧
    ∀ r ∈ c1ex.roomNodeIDs.take c1ex.numRoomNodes,
      tempAt (calcMundtModel 0 0 c1ex) r =
        (calcMundtModel 0 0 c1ex).calcTLeaving - (calcMundtModel 0 0 c1ex).calcSlope *
          (heightAt c1ex c1ex.returnNodeID - heightAt c1ex r)) :=
  ⟨⟨by decide, by decide, by decide, by decide, by decide, by decide, by decide, by decide,
    by decide, by decide⟩,
    claim_C1 0 0 c1ex (by decide) (by decide) (by decide) (by decide) (by decide) (by decide)
      (by decide) (by decide) (by decide) (by decide)⟩

/-- C2: in the stratification solve `TLeaving` equals the supply temperature
exactly when the total cooling load is non-positive, and otherwise equals the
supply temperature plus the load divided by the zone thermal capacity rate
(density × specific heat × supply volumetric flow). -/
theorem claim_C2 (cs ifs : ℚ) (s : MundtZoneState) :
    (s.qsysCoolTot ≤ 0 → (calcMundtModel cs ifs s).calcTLeaving = s.supplyAirTemp) ∧
    (0 < s.qsysCoolTot → (calcMundtModel cs ifs s).calcTLeaving =
      s.supplyAirTemp + s.qsysCoolTot / (s.zoneAirDensity * CpAir * s.supplyAirVolumeRate)) := by
  constructor
  · intro h
    rw [calc_calcTLeaving]
    simp [tLeavingOf, h]
  · intro h
    rw [calc_calcTLeaving]
    simp only [tLeavingOf, if_neg (not_le.mpr h)]
    ring

theorem claim_C2_witness :
    (c2a.qsysCoolTot ≤ 0 ∧ (calcMundtModel 0 0 c2a).calcTLeaving = c2a.supplyAirTemp) ∧
    (0 < c2b.qsysCoolTot ∧ (calcMundtModel 0 0 c2b).calcTLeaving =
      c2b.supplyAirTemp + c2b.qsysCoolTot /
        (c2b.zoneAirDensity * CpAir * c2b.supplyAirVolumeRate)) :=
  ⟨⟨by decide, (claim_C2 0 0 c2a).1 (by decide)⟩,
    ⟨by decide, (claim_C2 0 0 c2b).2 (by decide)⟩⟩

/-- Numeric evaluation of the solver inputs at `c3lo`. -/
theorem c3lo_vals :
    tAirFootBalance 0 0 c3lo = 15 ∧ tLeavingOf c3lo = 15076/1005 ∧
      rawSlope 0 0 c3lo = 2/4623 := by
  have h1 : tAirFootBalance 0 0 c3lo = 15 := by
    simp only [tAirFootBalance, show floorSumHAT c3lo = 0 from rfl,
      show floorSumHA c3lo = 0 from rfl, show c3lo.zoneAirDensity = 1 from rfl,
      show c3lo.supplyAirVolumeRate = 1 from rfl, show c3lo.supplyAirTemp = 15 from rfl,
      show c3lo.convIntGain = 0 from rfl, show c3lo.qventCool = 0 from rfl, CpAir]
    norm_num
  have h2 : tLeavingOf c3lo = 15076/1005 := by
    simp only [tLeavingOf, show c3lo.qsysCoolTot = 1 from rfl,
      show c3lo.zoneAirDensity = 1 from rfl, show c3lo.supplyAirVolumeRate = 1 from rfl,
      show c3lo.supplyAirTemp = 15 from rfl, CpAir]
    rw [if_neg (by norm_num)]
    norm_num
  refine ⟨h1, h2, ?_⟩
  simp only [rawSlope, gradDiff, h1, h2,
    show heightAt c3lo c3lo.returnNodeID = 12/5 from rfl,
    show heightAt c3lo c3lo.mundtFootAirID = 1/10 from rfl]
  norm_num

/-- Numeric evaluation of the solver inputs at `c3hi`. -/
theorem c3hi_vals :
    tAirFootBalance 0 0 c3hi = 15 ∧ tLeavingOf c3hi = 23015/201 ∧
      rawSlope 0 0 c3hi = 200000/4623 := by
  have h1 : tAirFootBalance 0 0 c3hi = 15 := by
    simp only [tAirFootBalance, show floorSumHAT c3hi = 0 from rfl,
      show floorSumHA c3hi = 0 from rfl, show c3hi.zoneAirDensity = 1 from rfl,
      show c3hi.supplyAirVolumeRate = 1 from rfl, show c3hi.supplyAirTemp = 15 from rfl,
      show c3hi.convIntGain = 0 from rfl, show c3hi.qventCool = 0 from rfl, CpAir]
    norm_num
  have h2 : tLeavingOf c3hi = 23015/201 := by
    simp only [tLeavingOf, show c3hi.qsysCoolTot = 100000 from rfl,
      show c3hi.zoneAirDensity = 1 from rfl, show c3hi.supplyAirVolumeRate = 1 from rfl,
      show c3hi.supplyAirTemp = 15 from rfl, CpAir]
    rw [if_neg (by norm_num)]
    norm_num
  refine ⟨h1, h2, ?_⟩
  simp only [rawSlope, gradDiff, h1, h2,
    show heightAt c3hi c3hi.returnNodeID = 12/5 from rfl,
    show heightAt c3hi c3hi.mundtFootAirID = 1/10 from rfl]
  norm_num

/-- C3 counterexample: with a raw slope below `MinSlope` the solver sets
`TAirFoot = TLeaving` (line 697), not `TLeaving - Slope*(ReturnHeight -
FloorHeight)` as the claim states, so `TAirFoot` leaves the gradient line. -/
theorem claim_C3_counterexample :
    rawSlope 0 0 c3lo < MinSlope ∧
    MinSlope ≤ (calcMundtModel 0 0 c3lo).calcSlope ∧
    (calcMundtModel 0 0 c3lo).calcSlope ≤ MaxSlope ∧
    (calcMundtModel 0 0 c3lo).calcTAirFoot ≠
      (calcMundtModel 0 0 c3lo).calcTLeaving -
        (calcMundtModel 0 0 c3lo).calcSlope * gradDiff c3lo := by
  have hraw : rawSlope 0 0 c3lo < MinSlope := by
    rw [c3lo_vals.2.2]
    norm_num [MinSlope]
  have hcp : clampedPair 0 0 c3lo = (MinSlope, tLeavingOf c3lo) := by
    unfold clampedPair
    exact slopeClamp_low _ _ _ _ hraw
  refine ⟨hraw, ?_, ?_, ?_⟩
  · rw [calc_calcSlope, hcp]
  · rw [calc_calcSlope, hcp]
    norm_num [MinSlope, MaxSlope]
  · rw [calc_calcTAirFoot, calc_calcTLeaving, calc_calcSlope, hcp]
    simp only [show gradDiff c3lo = 12/5 - 1/10 from rfl]
    intro h
    have h2 := sub_eq_self.mp h.symm
    norm_num [MinSlope] at h2

/-- C3 (amended): after clamping, `Slope` always lies in `[MinSlope,
MaxSlope]`; a raw slope above `MaxSlope` recomputes `TAirFoot` on the
gradient line through `TLeaving`, while a raw slope below `MinSlope` instead
forces `TAirFoot = TLeaving` (isothermal case, not the line formula). -/
theorem claim_C3 (cs ifs : ℚ) (s : MundtZoneState) :
    (MinSlope ≤ (calcMundtModel cs ifs s).calcSlope ∧
      (calcMundtModel cs ifs s).calcSlope ≤ MaxSlope) ∧
    (MaxSlope < rawSlope cs ifs s →
      (calcMundtModel cs ifs s).calcTAirFoot =
        (calcMundtModel cs ifs s).calcTLeaving -
          (calcMundtModel cs ifs s).calcSlope * gradDiff s) ∧
    (rawSlope cs ifs s < MinSlope →
      (calcMundtModel cs ifs s).calcTAirFoot = (calcMundtModel cs ifs s).calcTLeaving) := by
  refine ⟨?_, ?_, ?_⟩
  · rw [calc_calcSlope]
    exact slopeClamp_mem _ _ _ _
  · intro h
    rw [calc_calcTAirFoot, calc_calcTLeaving, calc_calcSlope]
    unfold clampedPair
    rw [slopeClamp_high _ _ _ _ h]
  · intro h
    rw [calc_calcTAirFoot, calc_calcTLeaving]
    unfold clampedPair
    rw [slopeClamp_low _ _ _ _ h]

theorem claim_C3_witness :
    (MaxSlope < rawSlope 0 0 c3hi ∧
      (calcMundtModel 0 0 c3hi).calcTAirFoot =
        (calcMundtModel 0 0 c3hi).calcTLeaving -
          (calcMundtModel 0 0 c3hi).calcSlope * gradDiff c3hi) ∧
    (rawSlope 0 0 c3lo < MinSlope ∧
      (calcMundtModel 0 0 c3lo).calcTAirFoot = (calcMundtModel 0 0 c3lo).calcTLeaving) := by
  constructor
  · have hhi : MaxSlope < rawSlope 0 0 c3hi := by
      rw [c3hi_vals.2.2]
      norm_num [MaxSlope]
    exact ⟨hhi, (claim_C3 0 0 c3hi).2.1 hhi⟩
  · have hlo : rawSlope 0 0 c3lo < MinSlope := by
      rw [c3lo_vals.2.2]
      norm_num [MinSlope]
    exact ⟨hlo, (claim_C3 0 0 c3lo).2.2 hlo⟩

/-- Numeric evaluation of the solver inputs at `c5ex`. -/
theorem c5ex_vals :
    tAirFootBalance 0 0 c5ex = 15 ∧ tLeavingOf c5ex = 15076/1005 ∧
      rawSlope 0 0 c5ex = 2/4623 := by
  have h1 : tAirFootBalance 0 0 c5ex = 15 := by
    simp only [tAirFootBalance, show floorSumHAT c5ex = 0 from rfl,
      show floorSumHA c5ex = 0 from rfl, show c5ex.zoneAirDensity = 1 from rfl,
      show c5ex.supplyAirVolumeRate = 1 from rfl, show c5ex.supplyAirTemp = 15 from rfl,
      show c5ex.convIntGain = 0 from rfl, show c5ex.qventCool = 0 from rfl, CpAir]
    norm_num
  have h2 : tLeavingOf c5ex = 15076/1005 := by
    simp only [tLeavingOf, show c5ex.qsysCoolTot = 1 from rfl,
      show c5ex.zoneAirDensity = 1 from rfl, show c5ex.supplyAirVolumeRate = 1 from rfl,
      show c5ex.supplyAirTemp = 15 from rfl, CpAir]
    rw [if_neg (by norm_num)]
    norm_num
  refine ⟨h1, h2, ?_⟩
  simp only [rawSlope, gradDiff, h1, h2,
    show heightAt c5ex c5ex.returnNodeID = 12/5 from rfl,
    show heightAt c5ex c5ex.mundtFootAirID = 1/10 from rfl]
  norm_num

/-- C5 counterexample: a solved zone (both gate thresholds met) whose raw
slope falls below `MinSlope`: the room node at 1.2 m ends strictly colder
than both the floor temperature (forced to `TLeaving`) and the ceiling
temperature, so the floor/ceiling temperatures do not bound it. -/
theorem claim_C5_counterexample :
    c5ex.supplyAirVolumeRate > 1/10000 ∧ c5ex.qsysCoolTot > 1/10000 ∧
    c5ex.roomNodeIDs.take c5ex.numRoomNodes = [3] ∧
    heightAt c5ex c5ex.mundtFootAirID ≤ heightAt c5ex 3 ∧
    heightAt c5ex 3 ≤ heightAt c5ex c5ex.mundtCeilAirID ∧
    heightAt c5ex c5ex.mundtCeilAirID ≤ heightAt c5ex c5ex.returnNodeID ∧
    tempAt (calcMundtModel 0 0 c5ex) 3 <
      min (tempAt (calcMundtModel 0 0 c5ex) c5ex.mundtFootAirID)
        (tempAt (calcMundtModel 0 0 c5ex) c5ex.mundtCeilAirID) := by
  have hraw : rawSlope 0 0 c5ex < MinSlope := by
    rw [c5ex_vals.2.2]
    norm_num [MinSlope]
  have hcp : clampedPair 0 0 c5ex = (MinSlope, tLeavingOf c5ex) := by
    unfold clampedPair
    exact slopeClamp_low _ _ _ _ hraw
  have hfoot := calc_tempAt_foot 0 0 c5ex (by decide) (by decide) (by decide)
  have hceil := calc_tempAt_ceil 0 0 c5ex (by decide) (by decide) (by decide) (by decide)
  have hroom := calc_tempAt_room 0 0 c5ex 3 (by decide) (by decide)
  refine ⟨by rw [show c5ex.supplyAirVolumeRate = 1 from rfl]; norm_num,
    by rw [show c5ex.qsysCoolTot = 1 from rfl]; norm_num,
    by decide,
    by rw [show heightAt c5ex c5ex.mundtFootAirID = 1/10 from rfl,
      show heightAt c5ex 3 = 6/5 from rfl]; norm_num,
    by rw [show heightAt c5ex 3 = 6/5 from rfl,
      show heightAt c5ex c5ex.mundtCeilAirID = 23/10 from rfl]; norm_num,
    by rw [show heightAt c5ex c5ex.mundtCeilAirID = 23/10 from rfl,
      show heightAt c5ex c5ex.returnNodeID = 12/5 from rfl]; norm_num, ?_⟩
  rw [hroom, hfoot, hceil, hcp]
  simp only [show heightAt c5ex c5ex.returnNodeID = 12/5 from rfl,
    show heightAt c5ex 3 = 6/5 from rfl,
    show heightAt c5ex c5ex.mundtCeilAirID = 23/10 from rfl, MinSlope]
  rw [lt_min_iff]
  constructor <;> linarith

/-- C5 (amended): for a zone with a single room node whose height lies between
the Floor and Ceiling heights (Return at or above Ceiling), the solved room
temperature lies between the solved floor and ceiling temperatures provided
the raw slope is at least `MinSlope`; the low-clamp branch violates this
(see the counterexample). -/
theorem claim_C5 (cs ifs : ℚ) (s : MundtZoneState) (r : Nat)
    (hroom : s.roomNodeIDs.take s.numRoomNodes = [r])
    (hr1 : 1 ≤ r) (hr2 : r ≤ s.lineNode.length)
    (hc1 : 1 ≤ s.mundtCeilAirID) (hc2 : s.mundtCeilAirID ≤ s.lineNode.length)
    (hf1 : 1 ≤ s.mundtFootAirID) (hf2 : s.mundtFootAirID ≤ s.lineNode.length)
    (ht1 : 1 ≤ s.tstatNodeID)
    (hcf : s.mundtFootAirID ≠ s.mundtCeilAirID)
    (hct : s.tstatNodeID ≠ s.mundtCeilAirID)
    (hft : s.tstatNodeID ≠ s.mundtFootAirID)
    (hrc : r ≠ s.mundtCeilAirID) (hrf : r ≠ s.mundtFootAirID)
    (hhf : heightAt s s.mundtFootAirID ≤ heightAt s r)
    (hhc : heightAt s r ≤ heightAt s s.mundtCeilAirID)
    (hhr : heightAt s s.mundtCeilAirID ≤ heightAt s s.returnNodeID)
    (hslope : MinSlope ≤ rawSlope cs ifs s) :
    tempAt (calcMundtModel cs ifs s) s.mundtFootAirID ≤ tempAt (calcMundtModel cs ifs s) r ∧
    tempAt (calcMundtModel cs ifs s) r ≤ tempAt (calcMundtModel cs ifs s) s.mundtCeilAirID := by
  have hd : gradDiff s ≠ 0 := by
    intro h0
    rw [rawSlope, h0, div_zero] at hslope
    norm_num [MinSlope] at hslope
  have hb : ∀ x ∈ s.roomNodeIDs.take s.numRoomNodes, 1 ≤ x ∧ x ≤ s.lineNode.length := by
    rw [hroom]
    intro x hx
    rw [List.mem_singleton] at hx
    exact hx ▸ ⟨hr1, hr2⟩
  have hfoot : tempAt (calcMundtModel cs ifs s) s.mundtFootAirID = (clampedPair cs ifs s).2 :=
    calc_tempAt_foot cs ifs s (by omega) (by omega) (by
      rw [hroom]
      intro x hx
      rw [List.mem_singleton] at hx
      subst hx
      omega)
  have hceil : tempAt (calcMundtModel cs ifs s) s.mundtCeilAirID =
      tLeavingOf s - (clampedPair cs ifs s).1 *
        (heightAt s s.returnNodeID - heightAt s s.mundtCeilAirID) :=
    calc_tempAt_ceil cs ifs s (by omega) (by omega) (by omega) (by
      rw [hroom]
      intro x hx
      rw [List.mem_singleton] at hx
      subst hx
      omega)
  have hroomT : tempAt (calcMundtModel cs ifs s) r =
      tLeavingOf s - (clampedPair cs ifs s).1 *
        (heightAt s s.returnNodeID - heightAt s r) :=
    calc_tempAt_room cs ifs s r (by rw [hroom]; exact List.mem_singleton_self r) hb
  have hline : (clampedPair cs ifs s).2 =
      tLeavingOf s - (clampedPair cs ifs s).1 * gradDiff s :=
    slopeClamp_onLine (tLeavingOf s) (tAirFootBalance cs ifs s) (gradDiff s) hd hslope
  have hpos : 0 < (clampedPair cs ifs s).1 := by
    have hmem := (slopeClamp_mem (tLeavingOf s) (tAirFootBalance cs ifs s)
      (rawSlope cs ifs s) (gradDiff s)).1
    have h0 : (0 : ℚ) < MinSlope := by norm_num [MinSlope]
    exact lt_of_lt_of_le h0 hmem
  rw [hfoot, hceil, hroomT, hline]
  unfold gradDiff
  constructor
  · have hmul := mul_le_mul_of_nonneg_left (sub_le_sub_left hhf (heightAt s s.returnNodeID))
      (le_of_lt hpos)
    linarith
  · have hmul := mul_le_mul_of_nonneg_left (sub_le_sub_left hhc (heightAt s s.returnNodeID))
      (le_of_lt hpos)
    linarith

/-- Numeric evaluation of the raw slope at `baseZoneState`. -/
theorem base_vals :
    tAirFootBalance 0 0 baseZoneState = 619/41 ∧ tLeavingOf baseZoneState = 3215/201 ∧
      MinSlope ≤ rawSlope 0 0 baseZoneState := by
  have h1 : tAirFootBalance 0 0 baseZoneState = 619/41 := by
    simp only [tAirFootBalance, show floorSumHAT baseZoneState = 10 * 2 * 20 + 0 from rfl,
      show floorSumHA baseZoneState = 10 * 2 + 0 from rfl,
      show baseZoneState.zoneAirDensity = 1 from rfl,
      show baseZoneState.supplyAirVolumeRate = 1 from rfl,
      show baseZoneState.supplyAirTemp = 15 from rfl,
      show baseZoneState.convIntGain = 0 from rfl,
      show baseZoneState.qventCool = 0 from rfl, CpAir]
    norm_num
  have h2 : tLeavingOf baseZoneState = 3215/201 := by
    simp only [tLeavingOf, show baseZoneState.qsysCoolTot = 1000 from rfl,
      show baseZoneState.zoneAirDensity = 1 from rfl,
      show baseZoneState.supplyAirVolumeRate = 1 from rfl,
      show baseZoneState.supplyAirTemp = 15 from rfl, CpAir]
    rw [if_neg (by norm_num)]
    norm_num
  refine ⟨h1, h2, ?_⟩
  simp only [rawSlope, gradDiff, h1, h2,
    show heightAt baseZoneState baseZoneState.returnNodeID = 12/5 from rfl,
    show heightAt baseZoneState baseZoneState.mundtFootAirID = 1/10 from rfl]
  norm_num [MinSlope]

theorem claim_C5_witness :
    (baseZoneState.roomNodeIDs.take baseZoneState.numRoomNodes = [3] ∧
      MinSlope ≤ rawSlope 0 0 baseZoneState ∧
      heightAt baseZoneState baseZoneState.mundtFootAirID ≤ heightAt baseZoneState 3 ∧
      heightAt baseZoneState 3 ≤ heightAt baseZoneState baseZoneState.mundtCeilAirID ∧
      heightAt baseZoneState baseZoneState.mundtCeilAirID ≤
        heightAt baseZoneState baseZoneState.returnNodeID) ∧
    (tempAt (calcMundtModel 0 0 baseZoneState) baseZoneState.mundtFootAirID ≤
      tempAt (calcMundtModel 0 0 baseZoneState) 3 ∧
    tempAt (calcMundtModel 0 0 baseZoneState) 3 ≤
      tempAt (calcMundtModel 0 0 baseZoneState) baseZoneState.mundtCeilAirID) := by
  have hhf : heightAt baseZoneState baseZoneState.mundtFootAirID ≤ heightAt baseZoneState 3 := by
    rw [show heightAt baseZoneState baseZoneState.mundtFootAirID = 1/10 from rfl,
      show heightAt baseZoneState 3 = 6/5 from rfl]
    norm_num
  have hhc : heightAt baseZoneState 3 ≤ heightAt baseZoneState baseZoneState.mundtCeilAirID := by
    rw [show heightAt baseZoneState 3 = 6/5 from rfl,
      show heightAt baseZoneState baseZoneState.mundtCeilAirID = 23/10 from rfl]
    norm_num
  have hhr : heightAt baseZoneState baseZoneState.mundtCeilAirID ≤
      heightAt baseZoneState baseZoneState.returnNodeID := by
    rw [show heightAt baseZoneState baseZoneState.mundtCeilAirID = 23/10 from rfl,
      show heightAt baseZoneState baseZoneState.returnNodeID = 12/5 from rfl]
    norm_num
  exact ⟨⟨by decide, base_vals.2.2, hhf, hhc, hhr⟩,
    claim_C5 0 0 baseZoneState 3 (by decide) (by decide) (by decide) (by decide) (by decide)
      (by decide) (by decide) (by decide) (by decide) (by decide) (by decide) (by decide)
      (by decide) hhf hhc hhr base_vals.2.2⟩

/-- Numeric evaluation of the solver inputs at C6's fixed scenario. -/
theorem c6ex_vals :
    tAirFootBalance 0 0 c6ex = 15 ∧ tLeavingOf c6ex = 1205/67 ∧
      rawSlope 0 0 c6ex = 2000/1541 := by
  have h1 : tAirFootBalance 0 0 c6ex = 15 := by
    simp only [tAirFootBalance, show floorSumHAT c6ex = 10 * 0 * 20 + 0 from rfl,
      show floorSumHA c6ex = 10 * 0 + 0 from rfl, show c6ex.zoneAirDensity = 1 from rfl,
      show c6ex.supplyAirVolumeRate = 1/2 from rfl, show c6ex.supplyAirTemp = 15 from rfl,
      show c6ex.convIntGain = 500 from rfl, show c6ex.qventCool = 300 from rfl, CpAir]
    norm_num
  have h2 : tLeavingOf c6ex = 1205/67 := by
    simp only [tLeavingOf, show c6ex.qsysCoolTot = 1500 from rfl,
      show c6ex.zoneAirDensity = 1 from rfl, show c6ex.supplyAirVolumeRate = 1/2 from rfl,
      show c6ex.supplyAirTemp = 15 from rfl, CpAir]
    rw [if_neg (by norm_num)]
    norm_num
  refine ⟨h1, h2, ?_⟩
  simp only [rawSlope, gradDiff, h1, h2,
    show heightAt c6ex c6ex.returnNodeID = 12/5 from rfl,
    show heightAt c6ex c6ex.mundtFootAirID = 1/10 from rfl]
  norm_num

/-- C6 counterexample: in the fixed scenario (supply 15 °C, density-normalized
supply flow 0.5, load 1500 W, zero floor splits, floor UA = 0, Return at
2.4 m, Floor at 0.1 m) the solver yields `TAirFoot = 15` but `TLeaving =
1205/67 ≈ 17.985`, so `TAirFoot` does not equal `TLeaving`. -/
theorem claim_C6_counterexample :
    (calcMundtModel 0 0 c6ex).calcTAirFoot = 15 ∧
    (calcMundtModel 0 0 c6ex).calcTLeaving = 1205/67 ∧
    (calcMundtModel 0 0 c6ex).calcTAirFoot ≠ (calcMundtModel 0 0 c6ex).calcTLeaving := by
  have hcp : clampedPair 0 0 c6ex = (rawSlope 0 0 c6ex, tAirFootBalance 0 0 c6ex) := by
    unfold clampedPair
    exact slopeClamp_mid _ _ _ _ (by rw [c6ex_vals.2.2]; norm_num [MinSlope])
      (by rw [c6ex_vals.2.2]; norm_num [MaxSlope])
  have h1 : (calcMundtModel 0 0 c6ex).calcTAirFoot = 15 := by
    rw [calc_calcTAirFoot, hcp]
    exact c6ex_vals.1
  have h2 : (calcMundtModel 0 0 c6ex).calcTLeaving = 1205/67 := by
    rw [calc_calcTLeaving]
    exact c6ex_vals.2.1
  refine ⟨h1, h2, ?_⟩
  rw [h1, h2]
  norm_num

/-- C6 (amended): in the fixed scenario, `TAirFoot` equals the supply
temperature (the floor energy balance with no floor-surface term and no
floor gains), `TLeaving` equals supply plus load over the zone thermal
capacity rate, and `Slope = (TLeaving - TAirFoot)/2.3`, which lies within
the clamp bounds. -/
theorem claim_C6 :
    (calcMundtModel 0 0 c6ex).calcTAirFoot = c6ex.supplyAirTemp ∧
    (calcMundtModel 0 0 c6ex).calcTLeaving = c6ex.supplyAirTemp +
      c6ex.qsysCoolTot / (c6ex.zoneAirDensity * CpAir * c6ex.supplyAirVolumeRate) ∧
    (calcMundtModel 0 0 c6ex).calcSlope =
      ((calcMundtModel 0 0 c6ex).calcTLeaving - (calcMundtModel 0 0 c6ex).calcTAirFoot) /
        (23/10) ∧
    MinSlope ≤ (calcMundtModel 0 0 c6ex).calcSlope ∧
    (calcMundtModel 0 0 c6ex).calcSlope ≤ MaxSlope := by
  have hcp : clampedPair 0 0 c6ex = (rawSlope 0 0 c6ex, tAirFootBalance 0 0 c6ex) := by
    unfold clampedPair
    exact slopeClamp_mid _ _ _ _ (by rw [c6ex_vals.2.2]; norm_num [MinSlope])
      (by rw [c6ex_vals.2.2]; norm_num [MaxSlope])
  refine ⟨?_, ?_, ?_, ?_, ?_⟩
  · rw [calc_calcTAirFoot, hcp, show c6ex.supplyAirTemp = 15 from rfl]
    exact c6ex_vals.1
  · rw [calc_calcTLeaving, c6ex_vals.2.1]
    simp only [show c6ex.supplyAirTemp = 15 from rfl, show c6ex.qsysCoolTot = 1500 from rfl,
      show c6ex.zoneAirDensity = 1 from rfl, show c6ex.supplyAirVolumeRate = 1/2 from rfl,
      CpAir]
    norm_num
  · rw [calc_calcSlope, calc_calcTLeaving, calc_calcTAirFoot, hcp]
    simp only [c6ex_vals.1, c6ex_vals.2.1, c6ex_vals.2.2]
    norm_num
  · rw [calc_calcSlope, hcp]
    simp only [c6ex_vals.2.2]
    norm_num [MinSlope]
  · rw [calc_calcSlope, hcp]
    simp only [c6ex_vals.2.2]
    norm_num [MaxSlope]

/-- C9: the slope computation divides by the Return/Floor height difference
with no zero-denominator guard: whenever the two heights coincide, the
guarded replica of the solve fails at that division (`none`), so the solve is
well-defined only under the unchecked precondition that the heights differ;
the unguarded `calcMundtModel` is a total function that performs the
division regardless. -/
theorem claim_C9 (cs ifs : ℚ) (s : MundtZoneState)
    (h : heightAt s s.returnNodeID = heightAt s s.mundtFootAirID) :
    calcMundtModelChecked cs ifs s = none := by
  have hd : heightAt s s.returnNodeID - heightAt s s.mundtFootAirID = 0 := by
    rw [h, sub_self]
  simp only [calcMundtModelChecked]
  cases h1 : safeDiv (s.zoneAirDensity * CpAir * s.supplyAirVolumeRate * s.supplyAirTemp +
      floorSumHAT s + cs * s.convIntGain + -ifs * s.qventCool)
      (s.zoneAirDensity * CpAir * s.supplyAirVolumeRate + floorSumHA s) with
  | none => rfl
  | some ta =>
    cases h2 : (if s.qsysCoolTot ≤ 0 then some s.supplyAirTemp
        else (safeDiv s.qsysCoolTot (s.zoneAirDensity * CpAir * s.supplyAirVolumeRate)).map
          (· + s.supplyAirTemp)) with
    | none => rfl
    | some tl =>
      have h3 : safeDiv (tl - ta) (heightAt s s.returnNodeID - heightAt s s.mundtFootAirID) =
          none := by rw [safeDiv, if_pos hd]
      simp [h3]

theorem claim_C9_witness :
    heightAt c9ex c9ex.returnNodeID = heightAt c9ex c9ex.mundtFootAirID ∧
    calcMundtModelChecked 0 0 c9ex = none :=
  ⟨rfl, claim_C9 0 0 c9ex rfl⟩

/-! Role resolution (`SetupMundtModel`). -/

/-- The role tags the classification switch of lines 569-586 recognizes. -/
def recognizedClass (c : Int) : Prop :=
  c = InletAirNode ∨ c = FloorAirNode ∨ c = ControlAirNode ∨ c = CeilingAirNode ∨
    c = MundtRoomAirNode ∨ c = ReturnAirNode

instance (c : Int) : Decidable (recognizedClass c) := by
  unfold recognizedClass
  infer_instance

theorem setupScanStep_lineNode (acc : MundtZoneState × Bool × List String) (n : Nat) :
    (setupScanStep acc n).1.lineNode = acc.1.lineNode := by
  simp only [setupScanStep]
  split_ifs <;> rfl

theorem setupScanStep_mundtCeilAirID (acc : MundtZoneState × Bool × List String) (n : Nat)
    (h : (nodeAt acc.1 n).classType ≠ CeilingAirNode) :
    (setupScanStep acc n).1.mundtCeilAirID = acc.1.mundtCeilAirID := by
  simp only [setupScanStep]
  split_ifs <;> first | rfl | exact absurd (by assumption) h

theorem setupScanStep_returnNodeID (acc : MundtZoneState × Bool × List String) (n : Nat)
    (h : (nodeAt acc.1 n).classType ≠ ReturnAirNode) :
    (setupScanStep acc n).1.returnNodeID = acc.1.returnNodeID := by
  simp only [setupScanStep]
  split_ifs <;> first | rfl | exact absurd (by assumption) h

theorem setupScanStep_tstatNodeID (acc : MundtZoneState × Bool × List String) (n : Nat)
    (h : (nodeAt acc.1 n).classType ≠ ControlAirNode) :
    (setupScanStep acc n).1.tstatNodeID = acc.1.tstatNodeID := by
  simp only [setupScanStep]
  split_ifs <;> first | rfl | exact absurd (by assumption) h

theorem setupScanStep_supplyNodeID (acc : MundtZoneState × Bool × List String) (n : Nat)
    (h : (nodeAt acc.1 n).classType ≠ InletAirNode) :
    (setupScanStep acc n).1.supplyNodeID = acc.1.supplyNodeID := by
  simp only [setupScanStep]
  split_ifs <;> first | rfl | exact absurd (by assumption) h

theorem setupScanStep_err (acc : MundtZoneState × Bool × List String) (n : Nat)
    (h : recognizedClass (nodeAt acc.1 n).classType) :
    (setupScanStep acc n).2.1 = acc.2.1 := by
  rcases h with h | h | h | h | h | h <;>
    simp [setupScanStep, h, InletAirNode, FloorAirNode, ControlAirNode, CeilingAirNode,
      MundtRoomAirNode, ReturnAirNode]

theorem setupScanStep_foot (acc : MundtZoneState × Bool × List String) (n : Nat) :
    (setupScanStep acc n).1.mundtFootAirID = n ∨
      (setupScanStep acc n).1.mundtFootAirID = acc.1.mundtFootAirID := by
  simp only [setupScanStep]
  split_ifs <;> simp

theorem setupFold_lineNode (l : List Nat) (acc : MundtZoneState × Bool × List String) :
    (l.foldl setupScanStep acc).1.lineNode = acc.1.lineNode :=
  foldl_pres setupScanStep (fun a => a.1.lineNode) setupScanStep_lineNode l acc

theorem setupFold_mundtCeilAirID (l : List Nat) (acc : MundtZoneState × Bool × List String)
    (h : ∀ n ∈ l, (nodeAt acc.1 n).classType ≠ CeilingAirNode) :
    (l.foldl setupScanStep acc).1.mundtCeilAirID = acc.1.mundtCeilAirID := by
  induction l generalizing acc with
  | nil => rfl
  | cons a l ih =>
    rw [List.foldl_cons, ih _ (by
      intro n hn
      rw [nodeAt_congr (setupScanStep_lineNode acc a) n]
      exact h n (List.mem_cons_of_mem a hn))]
    exact setupScanStep_mundtCeilAirID acc a (h a (List.mem_cons_self a l))

theorem setupFold_returnNodeID (l : List Nat) (acc : MundtZoneState × Bool × List String)
    (h : ∀ n ∈ l, (nodeAt acc.1 n).classType ≠ ReturnAirNode) :
    (l.foldl setupScanStep acc).1.returnNodeID = acc.1.returnNodeID := by
  induction l generalizing acc with
  | nil => rfl
  | cons a l ih =>
    rw [List.foldl_cons, ih _ (by
      intro n hn
      rw [nodeAt_congr (setupScanStep_lineNode acc a) n]
      exact h n (List.mem_cons_of_mem a hn))]
    exact setupScanStep_returnNodeID acc a (h a (List.mem_cons_self a l))

theorem setupFold_tstatNodeID (l : List Nat) (acc : MundtZoneState × Bool × List String)
    (h : ∀ n ∈ l, (nodeAt acc.1 n).classType ≠ ControlAirNode) :
    (l.foldl setupScanStep acc).1.tstatNodeID = acc.1.tstatNodeID := by
  induction l generalizing acc with
  | nil => rfl
  | cons a l ih =>
    rw [List.foldl_cons, ih _ (by
      intro n hn
      rw [nodeAt_congr (setupScanStep_lineNode acc a) n]
      exact h n (List.mem_cons_of_mem a hn))]
    exact setupScanStep_tstatNodeID acc a (h a (List.mem_cons_self a l))

theorem setupFold_supplyNodeID (l : List Nat) (acc : MundtZoneState × Bool × List String)
    (h : ∀ n ∈ l, (nodeAt acc.1 n).classType ≠ InletAirNode) :
    (l.foldl setupScanStep acc).1.supplyNodeID = acc.1.supplyNodeID := by
  induction l generalizing acc with
  | nil => rfl
  | cons a l ih =>
    rw [List.foldl_cons, ih _ (by
      intro n hn
      rw [nodeAt_congr (setupScanStep_lineNode acc a) n]
      exact h n (List.mem_cons_of_mem a hn))]
    exact setupScanStep_supplyNodeID acc a (h a (List.mem_cons_self a l))

theorem setupFold_err (l : List Nat) (acc : MundtZoneState × Bool × List String)
    (h : ∀ n ∈ l, recognizedClass (nodeAt acc.1 n).classType) :
    (l.foldl setupScanStep acc).2.1 = acc.2.1 := by
  induction l generalizing acc with
  | nil => rfl
  | cons a l ih =>
    rw [List.foldl_cons, ih _ (by
      intro n hn
      rw [nodeAt_congr (setupScanStep_lineNode acc a) n]
      exact h n (List.mem_cons_of_mem a hn))]
    exact setupScanStep_err acc a (h a (List.mem_cons_self a l))

theorem setupFold_foot_stable (l : List Nat) (acc : MundtZoneState × Bool × List String)
    (hpos : ∀ n ∈ l, 1 ≤ n) (hacc : 1 ≤ acc.1.mundtFootAirID) :
    1 ≤ (l.foldl setupScanStep acc).1.mundtFootAirID := by
  induction l generalizing acc with
  | nil => exact hacc
  | cons a l ih =>
    rw [List.foldl_cons]
    refine ih _ (fun n hn => hpos n (List.mem_cons_of_mem a hn)) ?_
    rcases setupScanStep_foot acc a with h | h
    · rw [h]
      exact hpos a (List.mem_cons_self a l)
    · rw [h]
      exact hacc

theorem setupFold_foot_pos (l : List Nat) (acc : MundtZoneState × Bool × List String)
    (hpos : ∀ n ∈ l, 1 ≤ n)
    (hex : ∃ n ∈ l, (nodeAt acc.1 n).classType = FloorAirNode) :
    1 ≤ (l.foldl setupScanStep acc).1.mundtFootAirID := by
  induction l generalizing acc with
  | nil => exact absurd hex (by simp)
  | cons a l ih =>
    rw [List.foldl_cons]
    by_cases ha : (nodeAt acc.1 a).classType = FloorAirNode
    · refine setupFold_foot_stable l _ (fun n hn => hpos n (List.mem_cons_of_mem a hn)) ?_
      have : (setupScanStep acc a).1.mundtFootAirID = a := by
        simp [setupScanStep, ha, InletAirNode, FloorAirNode, ControlAirNode, CeilingAirNode,
          MundtRoomAirNode, ReturnAirNode]
      rw [this]
      exact hpos a (List.mem_cons_self a l)
    · rcases hex with ⟨n, hn, hcl⟩
      rcases List.mem_cons.mp hn with rfl | hn2
      · exact absurd hcl ha
      · refine ih _ (fun n2 hn2 => hpos n2 (List.mem_cons_of_mem a hn2)) ⟨n, hn2, ?_⟩
        rw [nodeAt_congr (setupScanStep_lineNode acc a) n]
        exact hcl

/-- C10: the role resolver reports no error when every role tag is recognized
and a Floor node exists; a zone lacking a Ceiling, Return, Control or Supply
node is not detected, and the corresponding module-level role index keeps
whatever value the previously processed zone left (0 at program start), the
very indices the solver then uses to address `LineNode`. -/
theorem claim_C10 (zoneName : String) (totNodes : Nat) (s0 : MundtZoneState)
    (hrec : ∀ n ∈ List.range' 1 totNodes, recognizedClass (nodeAt s0 n).classType)
    (hfloor : ∃ n ∈ List.range' 1 totNodes, (nodeAt s0 n).classType = FloorAirNode) :
    (setupMundtModel zoneName totNodes s0).2.1 = false ∧
    ((∀ n ∈ List.range' 1 totNodes, (nodeAt s0 n).classType ≠ CeilingAirNode) →
      (setupMundtModel zoneName totNodes s0).1.mundtCeilAirID = s0.mundtCeilAirID) ∧
    ((∀ n ∈ List.range' 1 totNodes, (nodeAt s0 n).classType ≠ ReturnAirNode) →
      (setupMundtModel zoneName totNodes s0).1.returnNodeID = s0.returnNodeID) ∧
    ((∀ n ∈ List.range' 1 totNodes, (nodeAt s0 n).classType ≠ ControlAirNode) →
      (setupMundtModel zoneName totNodes s0).1.tstatNodeID = s0.tstatNodeID) ∧
    ((∀ n ∈ List.range' 1 totNodes, (nodeAt s0 n).classType ≠ InletAirNode) →
      (setupMundtModel zoneName totNodes s0).1.supplyNodeID = s0.supplyNodeID) ∧
    initialMundtState.mundtCeilAirID = 0 ∧ initialMundtState.returnNodeID = 0 ∧
    initialMundtState.tstatNodeID = 0 ∧ initialMundtState.supplyNodeID = 0 := by
  have hbase : ∀ n, nodeAt (({ s0 with numRoomNodes := 0, roomNodeIDs := [] } : MundtZoneState),
      false, ([] : List String)).1 n = nodeAt s0 n := fun n => rfl
  have hpos : ∀ n ∈ List.range' 1 totNodes, 1 ≤ n := by
    intro n hn
    exact (List.mem_range'_1.mp hn).1
  have hfoot : 0 < ((List.range' 1 totNodes).foldl setupScanStep
      (({ s0 with numRoomNodes := 0, roomNodeIDs := [] } : MundtZoneState), false,
        ([] : List String))).1.mundtFootAirID := by
    refine setupFold_foot_pos _ _ hpos ?_
    rcases hfloor with ⟨n, hn, hcl⟩
    exact ⟨n, hn, by rw [hbase]; exact hcl⟩
  refine ⟨?_, ?_, ?_, ?_, ?_, rfl, rfl, rfl, rfl⟩
  · simp only [setupMundtModel]
    rw [if_pos hfoot]
    exact setupFold_err _ _ (by
      intro n hn
      rw [hbase]
      exact hrec n hn)
  · intro h
    simp only [setupMundtModel]
    rw [if_pos hfoot]
    exact setupFold_mundtCeilAirID _ _ (by
      intro n hn
      rw [hbase]
      exact h n hn)
  · intro h
    simp only [setupMundtModel]
    rw [if_pos hfoot]
    exact setupFold_returnNodeID _ _ (by
      intro n hn
      rw [hbase]
      exact h n hn)
  · intro h
    simp only [setupMundtModel]
    rw [if_pos hfoot]
    exact setupFold_tstatNodeID _ _ (by
      intro n hn
      rw [hbase]
      exact h n hn)
  · intro h
    simp only [setupMundtModel]
    rw [if_pos hfoot]
    exact setupFold_supplyNodeID _ _ (by
      intro n hn
      rw [hbase]
      exact h n hn)

/-- A zone with only a Floor and a Room node: no ceiling, return, control or
supply node is declared. -/
def c10ex : MundtZoneState := { initialMundtState with
  lineNode := [mkNode "FLOOR" FloorAirNode (1/10) [true],
    mkNode "ROOM" MundtRoomAirNode (6/5) [false]]
  mundtAirSurf := [mkSurf 10 20 2]
  mundtCeilAirID := 7
  returnNodeID := 8
  tstatNodeID := 9
  supplyNodeID := 11 }

theorem claim_C10_witness :
    ((∀ n ∈ List.range' 1 2, recognizedClass (nodeAt c10ex n).classType) ∧
      (∃ n ∈ List.range' 1 2, (nodeAt c10ex n).classType = FloorAirNode) ∧
      (∀ n ∈ List.range' 1 2, (nodeAt c10ex n).classType ≠ CeilingAirNode) ∧
      (∀ n ∈ List.range' 1 2, (nodeAt c10ex n).classType ≠ ReturnAirNode) ∧
      (∀ n ∈ List.range' 1 2, (nodeAt c10ex n).classType ≠ ControlAirNode) ∧
      (∀ n ∈ List.range' 1 2, (nodeAt c10ex n).classType ≠ InletAirNode)) ∧
    ((setupMundtModel "ZONE ONE" 2 c10ex).2.1 = false ∧
      (setupMundtModel "ZONE ONE" 2 c10ex).1.mundtCeilAirID = c10ex.mundtCeilAirID ∧
      (setupMundtModel "ZONE ONE" 2 c10ex).1.returnNodeID = c10ex.returnNodeID ∧
      (setupMundtModel "ZONE ONE" 2 c10ex).1.tstatNodeID = c10ex.tstatNodeID ∧
      (setupMundtModel "ZONE ONE" 2 c10ex).1.supplyNodeID = c10ex.supplyNodeID) := by
  have hc := claim_C10 "ZONE ONE" 2 c10ex (by decide) (by decide)
  exact ⟨⟨by decide, by decide, by decide, by decide, by decide, by decide⟩,
    hc.1, hc.2.1 (by decide), hc.2.2.1 (by decide), hc.2.2.2.1 (by decide),
    hc.2.2.2.2.1 (by decide)⟩

/-! Coupling adapter and manager lemmas. -/

theorem copySurfInputs_tMeanAir (ms : List DefineSurfaceSettings) (ts cs : List ℚ) (j : Nat) :
    ((copySurfInputs ms ts cs).getD j default).tMeanAir = (ms.getD j default).tMeanAir := by
  induction ms generalizing ts cs j with
  | nil =>
    cases ts with
    | nil => rfl
    | cons t ts =>
      cases cs with
      | nil => rfl
      | cons c cs => rfl
  | cons m ms ih =>
    cases ts with
    | nil => rfl
    | cons t ts =>
      cases cs with
      | nil => rfl
      | cons c cs =>
        cases j with
        | zero => rfl
        | succ j =>
          simp only [copySurfInputs, List.getD_cons_succ]
          exact ih ts cs j

theorem copySurfInputs_area (ms : List DefineSurfaceSettings) (ts cs : List ℚ) (j : Nat) :
    ((copySurfInputs ms ts cs).getD j default).area = (ms.getD j default).area := by
  induction ms generalizing ts cs j with
  | nil =>
    cases ts with
    | nil => rfl
    | cons t ts =>
      cases cs with
      | nil => rfl
      | cons c cs => rfl
  | cons m ms ih =>
    cases ts with
    | nil => rfl
    | cons t ts =>
      cases cs with
      | nil => rfl
      | cons c cs =>
        cases j with
        | zero => rfl
        | succ j =>
          simp only [copySurfInputs, List.getD_cons_succ]
          exact ih ts cs j

theorem copySurfInputs_length (ms : List DefineSurfaceSettings) (ts cs : List ℚ) :
    (copySurfInputs ms ts cs).length = ms.length := by
  induction ms generalizing ts cs with
  | nil =>
    cases ts with
    | nil => rfl
    | cons t ts =>
      cases cs with
      | nil => rfl
      | cons c cs => rfl
  | cons m ms ih =>
    cases ts with
    | nil => rfl
    | cons t ts =>
      cases cs with
      | nil => rfl
      | cons c cs => simp [copySurfInputs, ih]

theorem getSurf_isSome (h : HostInputs) (s : MundtZoneState) (hc : h.isControlled = true) :
    getSurfHBDataForMundtModel h s =
      some ((getSurfHBDataForMundtModel h s).getD default) := by
  simp only [getSurfHBDataForMundtModel, hc]
  simp

/-- The inbound adapter leaves the air nodes, the ghost `TMeanAir` log, and
every surface's area and `TMeanAir` untouched; it overwrites each surface's
temperature and convective coefficient exactly once (one log entry per
surface index in the zone's range). -/
theorem getSurf_frame (h : HostInputs) (s s1 : MundtZoneState)
    (hg : getSurfHBDataForMundtModel h s = some s1) :
    s1.lineNode = s.lineNode ∧ s1.tmeanWriteLog = s.tmeanWriteLog ∧
    (∀ j, (surfAt s1 j).tMeanAir = (surfAt s j).tMeanAir) ∧
    (∀ j, (surfAt s1 j).area = (surfAt s j).area) ∧
    s1.mundtAirSurf.length = s.mundtAirSurf.length ∧
    s1.surfTempWriteLog = s.surfTempWriteLog ++ List.range' 1 s.mundtAirSurf.length := by
  by_cases hc : h.isControlled = true
  · rw [getSurf_isSome h s hc] at hg
    obtain rfl := (Option.some.inj hg).symm
    have hred : (getSurfHBDataForMundtModel h s).getD default =
        { s with
          zoneHeight := h.ceilingHeight
          zoneFloorArea := h.floorArea
          zoneAirDensity := h.psyRhoAirFnPbTdbW h.outBaroPress h.mat (h.psyWFnTdpPb h.mat h.outBaroPress)
          supplyAirVolumeRate := h.zoneNodeMassFlowRate /
            h.psyRhoAirFnPbTdbW h.outBaroPress h.mat (h.psyWFnTdpPb h.mat h.outBaroPress)
          supplyAirTemp := (if h.zoneNodeMassFlowRate ≤ 1 / 10000 then (s.supplyAirTemp, (0 : ℚ))
            else
              let sumSysMCp := (h.inletNodes.map fun nd =>
                nd.2 * h.psyCpAirFnWTdb h.zoneAirHumRat nd.1).sum
              let sumSysMCpT := (h.inletNodes.map fun nd =>
                nd.2 * h.psyCpAirFnWTdb h.zoneAirHumRat nd.1 * nd.1).sum
              let supplyAirTemp :=
                if sumSysMCp ≤ 0 then (h.inletNodes.getD 0 (0, 0)).1 else sumSysMCpT / sumSysMCp
              let cp := h.psyCpAirFnWTdb h.zoneAirHumRat h.mat
              (supplyAirTemp, -(sumSysMCpT - h.zoneNodeMassFlowRate * cp * h.mat))).1
          qsysCoolTot := (if h.zoneNodeMassFlowRate ≤ 1 / 10000 then (s.supplyAirTemp, (0 : ℚ))
            else
              let sumSysMCp := (h.inletNodes.map fun nd =>
                nd.2 * h.psyCpAirFnWTdb h.zoneAirHumRat nd.1).sum
              let sumSysMCpT := (h.inletNodes.map fun nd =>
                nd.2 * h.psyCpAirFnWTdb h.zoneAirHumRat nd.1 * nd.1).sum
              let supplyAirTemp :=
                if sumSysMCp ≤ 0 then (h.inletNodes.getD 0 (0, 0)).1 else sumSysMCpT / sumSysMCp
              let cp := h.psyCpAirFnWTdb h.zoneAirHumRat h.mat
              (supplyAirTemp, -(sumSysMCpT - h.zoneNodeMassFlowRate * cp * h.mat))).2
          convIntGain := h.sumIntConvGain + h.sumConvHTRadSys + h.sumConvPool +
            h.sysDepZoneLoadsLagged + h.nonAirSystemResponse / (h.multiplier * h.listMultiplier) +
            (if h.noHeatToReturnAir then h.retAirConvGain else 0)
          qventCool := -h.mcpi * (h.outDryBulbTemp - h.mat)
          mundtAirSurf := copySurfInputs s.mundtAirSurf h.tempSurfIn h.hConvIn
          surfTempWriteLog := s.surfTempWriteLog ++ List.range' 1 s.mundtAirSurf.length } := by
      simp only [getSurfHBDataForMundtModel, hc]
      simp
    rw [hred]
    refine ⟨rfl, rfl, ?_, ?_, ?_, rfl⟩
    · intro j
      exact copySurfInputs_tMeanAir s.mundtAirSurf h.tempSurfIn h.hConvIn (j - 1)
    · intro j
      exact copySurfInputs_area s.mundtAirSurf h.tempSurfIn h.hConvIn (j - 1)
    · exact copySurfInputs_length s.mundtAirSurf h.tempSurfIn h.hConvIn
  · exfalso
    have : getSurfHBDataForMundtModel h s = none := by
      simp only [getSurfHBDataForMundtModel]
      rw [if_pos (by simpa using hc)]
    rw [this] at hg
    exact Option.noConfusion hg

/-- The well-mixed fallback of the outbound adapter (lines 937-946). -/
theorem setSurf_off (h : HostInputs) (s : MundtZoneState)
    (hoff : ¬ (s.supplyAirVolumeRate > 1 / 10000 ∧ s.qsysCoolTot > 1 / 10000)) :
    setSurfHBDataForMundtModel h s =
      { tempEffBulkAir := List.replicate s.mundtAirSurf.length h.mat
        tAirRef := List.replicate s.mundtAirSurf.length ZoneMeanAirTemp
        zoneNodeTemp := none
        tempTstatAir := none
        simAirModel := false } := by
  simp only [setSurfHBDataForMundtModel, if_neg hoff]

/-- When the gate holds, the outbound adapter sets the model-in-use flag. -/
theorem setSurf_on_sim (h : HostInputs) (s : MundtZoneState)
    (hon : s.supplyAirVolumeRate > 1 / 10000 ∧ s.qsysCoolTot > 1 / 10000) :
    (setSurfHBDataForMundtModel h s).simAirModel = true := by
  simp only [setSurfHBDataForMundtModel, if_pos hon]
  split_ifs <;> rfl

theorem setup_supplyAirVolumeRate (zoneName : String) (totNodes : Nat) (s0 : MundtZoneState) :
    (setupMundtModel zoneName totNodes s0).1.supplyAirVolumeRate = s0.supplyAirVolumeRate := by
  have hf := foldl_pres setupScanStep (fun a => a.1.supplyAirVolumeRate)
    (fun acc n => by simp only [setupScanStep]; split_ifs <;> rfl) (List.range' 1 totNodes)
    (({ s0 with numRoomNodes := 0, roomNodeIDs := [] } : MundtZoneState), false, [])
  simp only [setupMundtModel]
  split_ifs <;> exact hf

theorem setup_qsysCoolTot (zoneName : String) (totNodes : Nat) (s0 : MundtZoneState) :
    (setupMundtModel zoneName totNodes s0).1.qsysCoolTot = s0.qsysCoolTot := by
  have hf := foldl_pres setupScanStep (fun a => a.1.qsysCoolTot)
    (fun acc n => by simp only [setupScanStep]; split_ifs <;> rfl) (List.range' 1 totNodes)
    (({ s0 with numRoomNodes := 0, roomNodeIDs := [] } : MundtZoneState), false, [])
  simp only [setupMundtModel]
  split_ifs <;> exact hf

/-- C4: after the inbound adapter establishes the working scalars, the role
resolver and stratification solver run exactly when supply volumetric flow
and total cooling load both exceed 0.0001.  When the gate fails, the solver
mutates no air-node temperature and no surface `TMeanAir` (the ghost write
log is untouched), every surface's bulk effective air temperature is the
host's mean air temperature with the zone-mean-air reference mode, and the
model-in-use flag is cleared; when it holds, the run is exactly
setup-then-solve and (absent setup errors) the flag is set. -/
theorem claim_C4 (h : HostInputs) (zoneName : String) (totNodes : Nat)
    (cs ifs : ℚ) (s s1 : MundtZoneState)
    (hg : getSurfHBDataForMundtModel h s = some s1) :
    (¬ (s1.supplyAirVolumeRate > 1 / 10000 ∧ s1.qsysCoolTot > 1 / 10000) →
      manageMundtModel h zoneName totNodes cs ifs s =
        some (s1, setSurfHBDataForMundtModel h s1) ∧
      s1.lineNode = s.lineNode ∧
      (∀ j, (surfAt s1 j).tMeanAir = (surfAt s j).tMeanAir) ∧
      s1.tmeanWriteLog = s.tmeanWriteLog ∧
      (setSurfHBDataForMundtModel h s1).tempEffBulkAir =
        List.replicate s1.mundtAirSurf.length h.mat ∧
      (setSurfHBDataForMundtModel h s1).tAirRef =
        List.replicate s1.mundtAirSurf.length ZoneMeanAirTemp ∧
      (setSurfHBDataForMundtModel h s1).simAirModel = false) ∧
    ((s1.supplyAirVolumeRate > 1 / 10000 ∧ s1.qsysCoolTot > 1 / 10000) →
      manageMundtModel h zoneName totNodes cs ifs s =
        (if (setupMundtModel zoneName totNodes s1).2.1 then none
         else some (calcMundtModel cs ifs (setupMundtModel zoneName totNodes s1).1,
           setSurfHBDataForMundtModel h
             (calcMundtModel cs ifs (setupMundtModel zoneName totNodes s1).1))) ∧
      (setSurfHBDataForMundtModel h
        (calcMundtModel cs ifs (setupMundtModel zoneName totNodes s1).1)).simAirModel =
          true) := by
  obtain ⟨hln, hlog, htm, _, _, _⟩ := getSurf_frame h s s1 hg
  constructor
  · intro hoff
    refine ⟨?_, hln, htm, hlog, ?_, ?_, ?_⟩
    · simp only [manageMundtModel, hg]
      rw [if_neg hoff]
    · rw [setSurf_off h s1 hoff]
    · rw [setSurf_off h s1 hoff]
    · rw [setSurf_off h s1 hoff]
  · intro hon
    constructor
    · simp only [manageMundtModel, hg]
      rw [if_pos hon]
    · refine setSurf_on_sim h _ ⟨?_, ?_⟩
      · rw [calc_supplyAirVolumeRate, setup_supplyAirVolumeRate]
        exact hon.1
      · rw [calc_qsysCoolTot, setup_qsysCoolTot]
        exact hon.2

/-- Host inputs whose system is off: zero zone-node mass flow, so the supply
volumetric flow is zero and the cooling load is zeroed. -/
def c4h : HostInputs :=
  { isControlled := true
    ceilingHeight := 24/10
    floorArea := 20
    multiplier := 1
    listMultiplier := 1
    outBaroPress := 101325
    mat := 25
    zoneAirHumRat := 1/100
    zoneNodeMassFlowRate := 0
    inletNodes := [(15, 0)]
    sumIntConvGain := 100
    sumConvHTRadSys := 0
    sumConvPool := 0
    sysDepZoneLoadsLagged := 0
    nonAirSystemResponse := 0
    noHeatToReturnAir := false
    retAirConvGain := 0
    mcpi := 0
    outDryBulbTemp := 30
    tempSurfIn := [20, 22]
    hConvIn := [2, 2]
    psyRhoAirFnPbTdbW := fun _ _ _ => 1
    psyWFnTdpPb := fun _ _ => 1/100
    psyCpAirFnWTdb := fun _ _ => 1000
    tempZoneThermostatSetPoint := 23
    zt := 25
    tempCoupleSchemeDirect := true }

/-- The zone state entering C4's witness invocation. -/
def c4s : MundtZoneState := baseZoneState

/-- The state the inbound adapter produces from `c4h` and `c4s`. -/
def c4s1 : MundtZoneState := (getSurfHBDataForMundtModel c4h c4s).getD default

theorem claim_C4_witness :
    (getSurfHBDataForMundtModel c4h c4s = some c4s1 ∧
      ¬ (c4s1.supplyAirVolumeRate > 1 / 10000 ∧ c4s1.qsysCoolTot > 1 / 10000)) ∧
    (manageMundtModel c4h "ZONE ONE" 6 0 0 c4s =
        some (c4s1, setSurfHBDataForMundtModel c4h c4s1) ∧
      c4s1.lineNode = c4s.lineNode ∧
      (∀ j, (surfAt c4s1 j).tMeanAir = (surfAt c4s j).tMeanAir) ∧
      c4s1.tmeanWriteLog = c4s.tmeanWriteLog ∧
      (setSurfHBDataForMundtModel c4h c4s1).tempEffBulkAir =
        List.replicate c4s1.mundtAirSurf.length c4h.mat ∧
      (setSurfHBDataForMundtModel c4h c4s1).tAirRef =
        List.replicate c4s1.mundtAirSurf.length ZoneMeanAirTemp ∧
      (setSurfHBDataForMundtModel c4h c4s1).simAirModel = false) := by
  have hg : getSurfHBDataForMundtModel c4h c4s = some c4s1 := getSurf_isSome c4h c4s rfl
  have hvol : c4s1.supplyAirVolumeRate = 0 / 1 := rfl
  have hoff : ¬ (c4s1.supplyAirVolumeRate > 1 / 10000 ∧ c4s1.qsysCoolTot > 1 / 10000) := by
    intro hcon
    have hv := hcon.1
    rw [hvol] at hv
    norm_num at hv
  exact ⟨⟨hg, hoff⟩, (claim_C4 c4h "ZONE ONE" 6 0 0 c4s c4s1 hg).1 hoff⟩

theorem count_range' (n i : Nat) :
    (List.range' 1 n).count i = if 1 ≤ i ∧ i ≤ n then 1 else 0 := by
  by_cases h : 1 ≤ i ∧ i ≤ n
  · rw [if_pos h]
    exact List.count_eq_one_of_mem (List.nodup_range' 1 n)
      (List.mem_range'_1.mpr ⟨h.1, by omega⟩)
  · rw [if_neg h]
    refine List.count_eq_zero_of_not_mem ?_
    intro hmem
    have hm := List.mem_range'_1.mp hmem
    exact h ⟨hm.1, by omega⟩

/-- C8 (amended): a surface entry's area is never changed by the inbound
adapter or the solver; the inbound adapter overwrites each surface's
temperature and convective coefficient exactly once per invocation (one log
entry per in-range index); the solver leaves `TMeanAir` of the adapter's
output untouched and then writes surface `i`'s `TMeanAir` once per node
mask containing `i` — exactly once only when the floor set, ceiling mask and
room-node masks cover `i` exactly once. -/
theorem claim_C8 (cs ifs : ℚ) (h : HostInputs) (s s1 t : MundtZoneState) (i : Nat)
    (hg : getSurfHBDataForMundtModel h s = some s1) :
    (∀ j, (surfAt s1 j).area = (surfAt s j).area) ∧
    (∀ j, (surfAt s1 j).tMeanAir = (surfAt s j).tMeanAir) ∧
    s1.surfTempWriteLog.count i = s.surfTempWriteLog.count i +
      (if 1 ≤ i ∧ i ≤ s.mundtAirSurf.length then 1 else 0) ∧
    (∀ j, (surfAt (calcMundtModel cs ifs t) j).area = (surfAt t j).area) ∧
    (calcMundtModel cs ifs t).tmeanWriteLog.count i =
      t.tmeanWriteLog.count i + (calcTmeanWrites t).count i := by
  obtain ⟨_, _, htm, har, _, hlog⟩ := getSurf_frame h s s1 hg
  refine ⟨har, htm, ?_, ?_, ?_⟩
  · rw [hlog, List.count_append, count_range' s.mundtAirSurf.length i]
  · intro j
    exact calc_area cs ifs t j
  · rw [calc_tmeanWriteLog, List.count_append]

/-- A post-setup zone state whose second surface belongs to no node mask:
the floor set covers surface 1 only, and the ceiling and room masks are
empty. -/
def c8s : MundtZoneState := { baseZoneState with
  lineNode := [mkNode "SUPPLY" InletAirNode 0 [false, false],
    mkNode "FLOOR" FloorAirNode (1/10) [true, false],
    mkNode "ROOM" MundtRoomAirNode (6/5) [false, false],
    mkNode "CEILING" CeilingAirNode (23/10) [false, false],
    mkNode "RETURN" ReturnAirNode (12/5) [false, false],
    mkNode "CONTROL" ControlAirNode (11/10) [false, false]] }

/-- C8 counterexample: in a solved invocation (both gate thresholds met),
surface 2 belongs to no node mask, so its `TMeanAir` is written zero times
— not exactly once — while the outbound adapter still reads a bulk
temperature for both surfaces of the zone. -/
theorem claim_C8_counterexample :
    c8s.supplyAirVolumeRate > 1 / 10000 ∧ c8s.qsysCoolTot > 1 / 10000 ∧
    c8s.mundtAirSurf.length = 2 ∧
    (calcMundtModel 0 0 c8s).tmeanWriteLog.count 2 = 0 ∧
    (setSurfHBDataForMundtModel c4h (calcMundtModel 0 0 c8s)).tempEffBulkAir.length = 2 := by
  have hon : (calcMundtModel 0 0 c8s).supplyAirVolumeRate > 1 / 10000 ∧
      (calcMundtModel 0 0 c8s).qsysCoolTot > 1 / 10000 := by
    constructor
    · rw [calc_supplyAirVolumeRate, show c8s.supplyAirVolumeRate = 1 from rfl]
      norm_num
    · rw [calc_qsysCoolTot, show c8s.qsysCoolTot = 1000 from rfl]
      norm_num
  refine ⟨by rw [show c8s.supplyAirVolumeRate = 1 from rfl]; norm_num,
    by rw [show c8s.qsysCoolTot = 1000 from rfl]; norm_num,
    by decide, ?_, ?_⟩
  · rw [calc_tmeanWriteLog, show c8s.tmeanWriteLog = [] from rfl]
    decide
  · simp only [setSurfHBDataForMundtModel, if_pos hon]
    rw [if_pos (show c4h.tempCoupleSchemeDirect = true from rfl)]
    simp only [List.length_map, List.length_range]
    rw [calc_surfLength]
    decide

theorem claim_C8_witness :
    ((getSurfHBDataForMundtModel c4h c4s = some c4s1) ∧ True) ∧
    ((∀ j, (surfAt c4s1 j).area = (surfAt c4s j).area) ∧
    (∀ j, (surfAt c4s1 j).tMeanAir = (surfAt c4s j).tMeanAir) ∧
    c4s1.surfTempWriteLog.count 1 = c4s.surfTempWriteLog.count 1 +
      (if 1 ≤ 1 ∧ 1 ≤ c4s.mundtAirSurf.length then 1 else 0) ∧
    (∀ j, (surfAt (calcMundtModel 0 0 c8s) j).area = (surfAt c8s j).area) ∧
    (calcMundtModel 0 0 c8s).tmeanWriteLog.count 1 =
      c8s.tmeanWriteLog.count 1 + (calcTmeanWrites c8s).count 1) :=
  ⟨⟨getSurf_isSome c4h c4s rfl, trivial⟩,
    claim_C8 0 0 c4h c4s c4s1 c8s 1 (getSurf_isSome c4h c4s rfl)⟩

/-! Topology build (`InitMundtModel`). -/

theorem processZoneNodes_log (airNodes : List AirNodeDef) (zoneName : String) :
    ∀ (remaining cursor : Nat) (m : String),
      m ∈ (processZoneNodes airNodes zoneName remaining cursor).1 → m = severeMsg zoneName := by
  intro remaining
  induction remaining with
  | zero =>
    intro cursor m hm
    exact absurd hm (List.not_mem_nil m)
  | succ rem ih =>
    intro cursor m hm
    simp only [processZoneNodes] at hm
    by_cases hlen : airNodes.length < cursor
    · rw [if_pos hlen] at hm
      exact absurd hm (List.not_mem_nil m)
    · rw [if_neg hlen] at hm
      cases hfind : (airNodes.drop (cursor - 1)).findIdx?
          (fun a => sameString a.zoneName zoneName) with
      | some k =>
        rw [hfind] at hm
        simp only at hm
        exact ih _ m hm
      | none =>
        rw [hfind] at hm
        simp only at hm
        rcases List.mem_cons.mp hm with rfl | hm2
        · rfl
        · exact ih _ m hm2

theorem processZoneNodes_err (airNodes : List AirNodeDef) (zoneName : String) :
    ∀ (remaining cursor : Nat) (row : List DefineLinearModelNode) (err : Bool),
      (processZoneNodes airNodes zoneName remaining cursor).2 = Except.ok (row, err) →
      (err = true ↔ (processZoneNodes airNodes zoneName remaining cursor).1 ≠ []) := by
  intro remaining
  induction remaining with
  | zero =>
    intro cursor row err h
    simp only [processZoneNodes] at h ⊢
    obtain ⟨-, herr⟩ := Prod.mk.injEq .. ▸ Except.ok.inj h
    constructor
    · intro ht
      exact absurd (herr ▸ ht) (by simp)
    · intro hne
      exact absurd rfl hne
  | succ rem ih =>
    intro cursor row err h
    simp only [processZoneNodes] at h ⊢
    by_cases hlen : airNodes.length < cursor
    · rw [if_pos hlen] at h
      exact absurd h (by simp)
    · rw [if_neg hlen] at h ⊢
      cases hfind : (airNodes.drop (cursor - 1)).findIdx?
          (fun a => sameString a.zoneName zoneName) with
      | some k =>
        rw [hfind] at h
        simp only at h ⊢
        cases hr : (processZoneNodes airNodes zoneName rem (cursor + k + 1)).2 with
        | error m =>
          rw [hr] at h
          exact absurd h (by simp)
        | ok p =>
          rw [hr] at h
          simp only at h
          obtain ⟨-, herr⟩ := Prod.mk.injEq .. ▸ Except.ok.inj h
          exact herr ▸ ih (cursor + k + 1) p.1 p.2 (by rw [hr])
      | none =>
        rw [hfind] at h
        simp only at h ⊢
        cases hr : (processZoneNodes airNodes zoneName rem cursor).2 with
        | error m =>
          rw [hr] at h
          exact absurd h (by simp)
        | ok p =>
          rw [hr] at h
          simp only at h
          obtain ⟨-, herr⟩ := Prod.mk.injEq .. ▸ Except.ok.inj h
          constructor
          · intro _
            simp
          · intro _
            exact herr.symm

theorem exceptOk_exists {e : Except String (List DefineLinearModelNode × Bool)}
    (h : e.isOk = true) : ∃ row err, e = Except.ok (row, err) := by
  cases e with
  | error m => exact absurd h (by simp [Except.isOk, Except.toBool])
  | ok p => exact ⟨p.1, p.2, rfl⟩

theorem initZones_ok (airNodes : List AirNodeDef) :
    ∀ zs : List ZoneRecord,
      (∀ z ∈ zs, ((processZoneNodes airNodes z.name z.numZoneAirNodes 1).2).isOk = true) →
      (initZones airNodes zs).1 =
        (zs.map fun z => (processZoneNodes airNodes z.name z.numZoneAirNodes 1).1).flatten ∧
      ∃ rows berr, (initZones airNodes zs).2 = Except.ok (rows, berr) ∧
        (berr = true ↔
          ∃ z ∈ zs, (processZoneNodes airNodes z.name z.numZoneAirNodes 1).1 ≠ []) := by
  intro zs
  induction zs with
  | nil =>
    intro _
    refine ⟨rfl, [], false, rfl, ?_⟩
    simp
  | cons z rest ih =>
    intro hok
    obtain ⟨zrow, zerr, hz⟩ := exceptOk_exists (hok z (List.mem_cons_self z rest))
    obtain ⟨hlog, rows, berr, hres, hiff⟩ :=
      ih fun z2 hz2 => hok z2 (List.mem_cons_of_mem z hz2)
    have hzerr := processZoneNodes_err airNodes z.name z.numZoneAirNodes 1 zrow zerr hz
    constructor
    · simp only [initZones, hz, hres, List.map_cons, List.flatten_cons]
      rw [hlog]
    · refine ⟨zrow :: rows, zerr || berr, ?_, ?_⟩
      · simp only [initZones, hz, hres]
      · rw [Bool.or_eq_true]
        constructor
        · intro hc
          rcases hc with hc | hc
          · exact ⟨z, List.mem_cons_self z rest, hzerr.mp hc⟩
          · obtain ⟨z2, hz2, hne⟩ := hiff.mp hc
            exact ⟨z2, List.mem_cons_of_mem z hz2, hne⟩
        · rintro ⟨z2, hz2, hne⟩
          rcases List.mem_cons.mp hz2 with rfl | hz22
          · exact Or.inl (hzerr.mpr hne)
          · exact Or.inr (hiff.mpr ⟨z2, hz22, hne⟩)

/-- C7 (amended): provided no zone's forward scan runs the cursor past the end
of the global air-node table (each per-zone pass completes without the
line-316 bound fatal), every unmatched air node appends that zone's severe
message to a log that accumulates across all Mundt zones, and a single fatal
abort (`initFatalMsg`) is issued only after all zones are scanned, exactly
when some node was unmatched; when the cursor does overrun, an immediate
fatal (`arrayBoundMsg`) fires instead and the remaining zones are never
scanned (see the counterexample). -/
theorem claim_C7 (inp : InitInputs)
    (hok : ∀ z ∈ inp.zones.filter (fun z => z.isMundt),
      ((processZoneNodes inp.airNodes z.name z.numZoneAirNodes 1).2).isOk = true) :
    (initMundtModel inp).1 =
      ((inp.zones.filter fun z => z.isMundt).map fun z =>
        (processZoneNodes inp.airNodes z.name z.numZoneAirNodes 1).1).flatten ∧
    (∀ m ∈ (initMundtModel inp).1, ∃ z ∈ inp.zones.filter (fun z => z.isMundt),
      m = severeMsg z.name) ∧
    ((∃ z ∈ inp.zones.filter (fun z => z.isMundt),
        (processZoneNodes inp.airNodes z.name z.numZoneAirNodes 1).1 ≠ []) →
      (initMundtModel inp).2 = Except.error initFatalMsg) ∧
    ((∀ z ∈ inp.zones.filter (fun z => z.isMundt),
        (processZoneNodes inp.airNodes z.name z.numZoneAirNodes 1).1 = []) →
      ∃ rows, (initMundtModel inp).2 = Except.ok rows) := by
  obtain ⟨hlog, rows, berr, hres, hiff⟩ :=
    initZones_ok inp.airNodes (inp.zones.filter fun z => z.isMundt) hok
  have hl : (initMundtModel inp).1 = (initZones inp.airNodes
      (inp.zones.filter fun z => z.isMundt)).1 := rfl
  refine ⟨hl.trans hlog, ?_, ?_, ?_⟩
  · intro m hm
    rw [hl, hlog] at hm
    obtain ⟨l, hlmem, hml⟩ := List.mem_flatten.mp hm
    obtain ⟨z, hz, hzl⟩ := List.mem_map.mp hlmem
    exact ⟨z, hz, processZoneNodes_log inp.airNodes z.name z.numZoneAirNodes 1 m (hzl ▸ hml)⟩
  · intro hex
    simp only [initMundtModel, hres]
    rw [if_pos (hiff.mpr hex)]
  · intro hall
    have hbf : berr = false := by
      cases hb : berr with
      | false => rfl
      | true =>
        obtain ⟨z, hz, hne⟩ := hiff.mp hb
        exact absurd (hall z hz) hne
    refine ⟨rows, ?_⟩
    simp only [initMundtModel, hres, hbf]
    rw [if_neg (by simp)]

/-- C7's counterexample input: ZONE1 declares two air nodes but the global
table holds a single definition (for ZONE1), so ZONE1's second node trips
the line-316 bound check; ZONE2's only node has no matching definition. -/
def c7inp : InitInputs :=
  { zones :=
      [{ name := "ZONE1", surfaceFirst := 1, surfaceLast := 1, isMundt := true,
         numZoneAirNodes := 2 },
       { name := "ZONE2", surfaceFirst := 2, surfaceLast := 2, isMundt := true,
         numZoneAirNodes := 1 }]
    airNodes :=
      [{ name := "N1", zoneName := "ZONE1", classType := FloorAirNode, height := 0,
         surfMask := [true] }] }

/-- C7 counterexample: ZONE1's second air node cannot be matched, yet it
produces no accumulated severe error: the build aborts immediately with the
bound-check fatal (a different message than the end-of-scan fatal), the
severe log is empty, and ZONE2 — which alone would have produced an
accumulated severe error — is never scanned. -/
theorem claim_C7_counterexample :
    (initMundtModel c7inp).1 = [] ∧
    (initMundtModel c7inp).2 = Except.error arrayBoundMsg ∧
    arrayBoundMsg ≠ initFatalMsg ∧
    (processZoneNodes c7inp.airNodes "ZONE2" 1 1).1 = [severeMsg "ZONE2"] := by
  refine ⟨rfl, rfl, by decide, rfl⟩

/-- A two-zone input where ZONE1's node matches case-insensitively and
ZONE2's node is unmatched, with no cursor overrun anywhere. -/
def c7mix : InitInputs :=
  { zones :=
      [{ name := "ZONE1", surfaceFirst := 1, surfaceLast := 1, isMundt := true,
         numZoneAirNodes := 1 },
       { name := "ZONE2", surfaceFirst := 2, surfaceLast := 2, isMundt := true,
         numZoneAirNodes := 1 }]
    airNodes :=
      [{ name := "N1", zoneName := "Zone1", classType := FloorAirNode, height := 0,
         surfMask := [true] },
       { name := "N3", zoneName := "ZONE3", classType := FloorAirNode, height := 0,
         surfMask := [true] }] }

theorem claim_C7_witness :
    (∀ z ∈ c7mix.zones.filter (fun z => z.isMundt),
      ((processZoneNodes c7mix.airNodes z.name z.numZoneAirNodes 1).2).isOk = true) ∧
    ((initMundtModel c7mix).1 =
      ((c7mix.zones.filter fun z => z.isMundt).map fun z =>
        (processZoneNodes c7mix.airNodes z.name z.numZoneAirNodes 1).1).flatten ∧
    (∀ m ∈ (initMundtModel c7mix).1, ∃ z ∈ c7mix.zones.filter (fun z => z.isMundt),
      m = severeMsg z.name) ∧
    ((∃ z ∈ c7mix.zones.filter (fun z => z.isMundt),
        (processZoneNodes c7mix.airNodes z.name z.numZoneAirNodes 1).1 ≠ []) →
      (initMundtModel c7mix).2 = Except.error initFatalMsg) ∧
    ((∀ z ∈ c7mix.zones.filter (fun z => z.isMundt),
        (processZoneNodes c7mix.airNodes z.name z.numZoneAirNodes 1).1 = []) →
      ∃ rows, (initMundtModel c7mix).2 = Except.ok rows)) :=
  ⟨by decide, claim_C7 c7mix (by decide)⟩

end MundtSimMgr
